import Mathlib

/-!
Shallow embedding of `src/featureconverter.js` (olcs.FeatureConverter), the
converter from OpenLayers 3 vector features to Cesium primitives, together with
proofs of the specification claims about it.

Modelling conventions:
* JavaScript numbers are modelled by `ℚ` (none of the verified claims depends
  on floating-point behaviour).
* JavaScript's three-way `undefined` / `null` / value distinction, where the
  source distinguishes it (`goog.isDef` vs `goog.isDefAndNotNull`), is modelled
  by `JSVal`.  Where the source only distinguishes "absent vs present",
  `Option` is used.
* Fatal failures (`goog.asserts.assert`, `goog.asserts.fail`, `throw`,
  and JavaScript `TypeError`s the code would raise) are modelled by
  `Except String`.
* External collaborators (Cesium and the `olcs.core` helpers, which live
  outside this source file) are modelled opaquely: coordinate reprojection and
  `Cesium.Cartesian3.distance` are fields of a `CoreEnv` parameter that every
  converter receives, and `olcs.core.convertColorToCesium` is modelled by the
  free constructor `CesColor.fromOlColor`.  Cesium constructor calls
  (`Cesium.Primitive`, `Cesium.CircleGeometry`, ...) are modelled by
  constructors of `Renderable` / `CesGeometry` recording exactly the options
  the source passes.
-/

set_option autoImplicit false
set_option linter.unusedVariables false

/-- A JavaScript value that can be `undefined`, `null`, or a proper value.
`goog.isDef` is true on `null` and `val`, `goog.isDefAndNotNull` only on
`val`. -/
inductive JSVal (α : Type) where
  | undef
  | null
  | val (a : α)
deriving DecidableEq

/-- `goog.isDef` : anything but `undefined`. -/
def JSVal.isDef {α : Type} : JSVal α → Bool
  | .undef => false
  | _ => true

/-- `goog.isDefAndNotNull` : neither `undefined` nor `null`. -/
def JSVal.isDefAndNotNull {α : Type} : JSVal α → Bool
  | .val _ => true
  | _ => false

/-- An `ol.Coordinate`: a JavaScript array of numbers (2 or 3 entries in
practice). -/
abbrev Coordinate := List ℚ

/-- An OpenLayers color (the converters only pass it through to
`olcs.core.convertColorToCesium`, so its internal structure is irrelevant;
the source's `'black'` default is the string "black"). -/
abbrev OlColor := String

/-- A Cesium color.  `fromOlColor c` is the (opaque) result of
`olcs.core.convertColorToCesium(c)`; `rgba` is `new Cesium.Color(r, g, b, a)`. -/
inductive CesColor where
  | fromOlColor (c : OlColor)
  | rgba (r g b a : ℚ)
deriving DecidableEq

/-- `Cesium.Cartesian3`. -/
structure Cartesian3 where
  x : ℚ
  y : ℚ
  z : ℚ
deriving DecidableEq

/-- `ol.style.Fill` as read by the converter (`getColor`). -/
structure Fill where
  color : OlColor
deriving DecidableEq

/-- `ol.style.Stroke` as read by the converter (`getColor`, `getWidth`,
`getLineDash`).  `lineDash` is `none` when `getLineDash()` returns a null-ish
value (the JavaScript truthiness test `stroke.getLineDash()`). -/
structure Stroke where
  color : OlColor
  width : ℚ
  lineDash : Option (List ℚ)
deriving DecidableEq

/-- The image returned by `imageStyle.getImage(1)`.  `image` models the DOM
`Image` / `HTMLImageElement` constructors (one constructor in a browser),
`canvas` models `HTMLCanvasElement`, `other` any other object, and
`nullImage` the JavaScript `null`. -/
inductive JSImage where
  | nullImage
  | canvas (id : Nat)
  | image (src : String) (naturalWidth naturalHeight : Nat) (complete : Bool)
  | other (id : Nat)
deriving DecidableEq

/-- `image instanceof Image` (equivalently `instanceof HTMLImageElement`). -/
def instanceofImage : JSImage → Bool
  | .image _ _ _ _ => true
  | _ => false

/-- `image instanceof HTMLCanvasElement || image instanceof Image ||
image instanceof HTMLImageElement`: the image kinds `reallyCreateBillboard`
accepts. -/
def supportedImage : JSImage → Bool
  | .canvas _ => true
  | .image _ _ _ _ => true
  | _ => false

/-- The source's `isImageLoaded` helper:
`image.src != '' && image.naturalHeight != 0 && image.naturalWidth != 0 &&
image.complete`.  It is only ever called on `Image` instances; on the other
constructors the value is irrelevant (we return `false`). -/
def isImageLoaded : JSImage → Bool
  | .image src w h complete =>
      decide (src ≠ "") && decide (h ≠ 0) && decide (w ≠ 0) && complete
  | _ => false

/-- `ol.style.Image` as read by the converter: the resolved image
(`getImage(1)`) and `getOpacity()` (`none` models `undefined`). -/
structure ImageStyle where
  image : JSImage
  opacity : Option ℚ
deriving DecidableEq

/-- `ol.style.Text` as read by the converter. `none` fields model `undefined`
or null-ish getter results. -/
structure TextStyle where
  text : Option String
  font : Option String
  offsetX : ℚ
  offsetY : ℚ
  textAlign : Option String
  textBaseline : Option String
  fill : Option Fill
  stroke : Option Stroke
deriving DecidableEq

/-- A plain (resolved) `ol.style.Style`. -/
structure Style where
  fill : Option Fill
  stroke : Option Stroke
  text : Option TextStyle
  image : Option ImageStyle
deriving DecidableEq

/-- The fill/stroke face shared by `ol.style.Style` and `ol.style.Text`:
`extractColorFromOlStyle` and `extractLineWidthFromOlStyle` are duck-typed
over both in the source (`{!ol.style.Style|ol.style.Text}`). -/
structure StyleColorView where
  fill : Option Fill
  stroke : Option Stroke
deriving DecidableEq

/-- The fill/stroke view of a plain style. -/
def Style.colorView (s : Style) : StyleColorView := ⟨s.fill, s.stroke⟩

/-- The fill/stroke view of a text style. -/
def TextStyle.colorView (t : TextStyle) : StyleColorView := ⟨t.fill, t.stroke⟩

/-- The target projection (opaque to the converter). -/
abbrev Projection := String

/-- A geometry as read by the converter, with the `altitudeMode` property
(`geometry.get('altitudeMode')`) attached.  `geometryCollection` members are
the non-null geometries returned by `getGeometries()`. -/
inductive Geometry where
  | point (coords : Coordinate) (altMode : Option String)
  | lineString (coords : List Coordinate) (altMode : Option String)
  | polygon (rings : List (List Coordinate)) (altMode : Option String)
  | circle (center : Coordinate) (radius : ℚ) (altMode : Option String)
  | multiPoint (points : List Coordinate) (altMode : Option String)
  | multiLineString (lines : List (List Coordinate)) (altMode : Option String)
  | multiPolygon (polygons : List (List (List Coordinate))) (altMode : Option String)
  | geometryCollection (geometries : List Geometry) (altMode : Option String)
  | linearRing (coords : List Coordinate) (altMode : Option String)

/-- `geometry.get('altitudeMode')`. -/
def Geometry.altitudeMode : Geometry → Option String
  | .point _ a => a
  | .lineString _ a => a
  | .polygon _ a => a
  | .circle _ _ a => a
  | .multiPoint _ a => a
  | .multiLineString _ a => a
  | .multiPolygon _ a => a
  | .geometryCollection _ a => a
  | .linearRing _ a => a

/-- `geometry instanceof ol.geom.SimpleGeometry` (everything except
`GeometryCollection`). -/
def Geometry.isSimple : Geometry → Bool
  | .geometryCollection _ _ => false
  | _ => true

/-- `geometry.getFirstCoordinate()` (degenerate geometries give `[]`). -/
def Geometry.firstCoordinate : Geometry → Coordinate
  | .point c _ => c
  | .lineString cs _ => cs.headD []
  | .polygon rings _ => (rings.headD []).headD []
  | .circle c _ _ => c
  | .multiPoint cs _ => cs.headD []
  | .multiLineString ls _ => (ls.headD []).headD []
  | .multiPolygon ps _ => (((ps.headD []).headD []).headD [])
  | .geometryCollection _ _ => []
  | .linearRing cs _ => cs.headD []

/-- An `ol.Feature` as read by the converter.  `uid` models `goog.getUid`. -/
structure Feature where
  uid : Nat
  geometry : Option Geometry
  styleFunction : Option (ℚ → JSVal (List Style))
  altitudeMode : Option String

/-- An `ol.layer.Vector` as read by the converter.  `features` is
`layer.getSource().getFeatures()` (entries can be null-ish, which the layer
loop skips). -/
structure Layer where
  features : List (Option Feature)
  styleFunction : Option (Feature → ℚ → JSVal (List Style))
  altitudeMode : Option String

/-- An `ol.View` as read by the converter: `getProjection()` and
`getResolution()` can be absent. -/
structure View where
  projection : Option Projection
  resolution : Option ℚ

/-- The `Cesium.Scene` state the converter reads. -/
structure Scene where
  maximumAliasedLineWidth : ℚ

/-- The external collaborators of the converter: the Cesium scene, the
`olcs.core` reprojection helpers (which live outside this source file and are
kept opaque), `Cesium.Cartesian3.distance`, and `ol.extent.getCenter` composed
with `getExtent`.  Every converter is parametric in this environment. -/
structure CoreEnv where
  scene : Scene
  /-- `olcs.core.ol4326CoordinateToCesiumCartesian`. -/
  toCartesian : Coordinate → Cartesian3
  /-- `olcs.core.ol4326CoordinateArrayToCsCartesians`. -/
  toCartesians : List Coordinate → List Cartesian3
  /-- `Cesium.Cartesian3.distance`. -/
  dist : Cartesian3 → Cartesian3 → ℚ
  /-- `olcs.core.olGeometryCloneTo4326` on a Point's coordinates. -/
  clonePointCoord : Coordinate → Coordinate
  /-- `olcs.core.olGeometryCloneTo4326` on a LineString's coordinates. -/
  cloneLineStringCoords : List Coordinate → List Coordinate
  /-- `olcs.core.olGeometryCloneTo4326` on a Polygon's linear rings. -/
  clonePolygonRings : List (List Coordinate) → List (List Coordinate)
  /-- `olcs.core.olGeometryCloneTo4326` on a Circle (center, radius). -/
  cloneCircle : Coordinate → ℚ → Coordinate × ℚ
  /-- `ol.extent.getCenter(geometry.getExtent())`. -/
  extentCenter : Geometry → ℚ × ℚ

/-- The back-reference `setReferenceForPicking` installs:
`primitive.olLayer = layer; primitive.olFeature = feature`. -/
abbrev PickRef := Layer × Feature

/-- A Cesium geometry object, recording exactly the options the source passes
to the corresponding Cesium constructor. -/
inductive Hierarchy where
  /-- One level of the polygon hierarchy object the source builds:
  `{positions: ..., holes: {...}}` (the source nests each hole inside the
  previous one rather than using an array). -/
  | node (positions : List Cartesian3) (holes : Option Hierarchy)

/-- The `positions` field of a hierarchy node. -/
def Hierarchy.positions : Hierarchy → List Cartesian3
  | .node ps _ => ps

/-- The `holes` field of a hierarchy node. -/
def Hierarchy.holes : Hierarchy → Option Hierarchy
  | .node _ h => h

/-- Number of hole entries reachable through the nested `holes` chain. -/
def Hierarchy.holeCount : Hierarchy → Nat
  | .node _ none => 0
  | .node _ (some h) => 1 + h.holeCount

/-- Number of ring boundaries a hierarchy describes: its own `positions` ring
plus one per hole entry. -/
def Hierarchy.ringCount (h : Hierarchy) : Nat := 1 + h.holeCount

/-- The innermost node of the nested `holes` chain: the value of the source's
`hierarchy` loop variable after the ring loop has run. -/
def Hierarchy.lastNode : Hierarchy → Hierarchy
  | .node ps none => .node ps none
  | .node _ (some h) => h.lastNode

/-- The nested `holes` chain built by the polygon ring loop for the rings
after the first one. -/
def chainHoles : List (List Cartesian3) → Option Hierarchy
  | [] => none
  | ps :: rest => some (.node ps (chainHoles rest))

/-- A Cesium geometry, recording the options passed to the Cesium geometry
constructor used by the source. -/
inductive CesGeometry where
  /-- `new Cesium.CircleGeometry({center, radius, height})`. -/
  | circle (center : Cartesian3) (radius : ℚ) (height : ℚ)
  /-- `new Cesium.CircleOutlineGeometry({center, radius, extrudedHeight, height})`. -/
  | circleOutline (center : Cartesian3) (radius : ℚ) (extrudedHeight height : ℚ)
  /-- `new Cesium.PolygonGeometry({polygonHierarchy, perPositionHeight})`. -/
  | polygon (polygonHierarchy : Hierarchy) (perPositionHeight : Bool)
  /-- `new Cesium.PolygonOutlineGeometry({polygonHierarchy, perPositionHeight})`. -/
  | polygonOutline (polygonHierarchy : Hierarchy) (perPositionHeight : Bool)
  /-- `new Cesium.PolylineGeometry({positions, width, vertexFormat})`. -/
  | polyline (positions : List Cartesian3) (width : ℚ)

/-- A Cesium material (`Cesium.Material.fromType`). -/
inductive Material where
  | stripe (horizontal : Bool) (repeats : ℚ) (evenColor oddColor : CesColor)
  | flatColor (color : CesColor)
deriving DecidableEq

/-- `Cesium.HeightReference`. -/
inductive HeightReference where
  | NONE
  | CLAMP_TO_GROUND
  | RELATIVE_TO_GROUND
deriving DecidableEq

/-- `Cesium.VerticalOrigin`. -/
inductive VerticalOrigin where
  | TOP
  | CENTER
  | BOTTOM
deriving DecidableEq

/-- `Cesium.HorizontalOrigin`. -/
inductive HorizontalOrigin where
  | CENTER
  | LEFT
  | RIGHT
deriving DecidableEq

/-- `Cesium.LabelStyle`. -/
inductive LabelStyle where
  | FILL
  | OUTLINE
  | FILL_AND_OUTLINE
deriving DecidableEq

/-- The options record passed to `billboards.add`. -/
structure BbOptions where
  image : JSImage
  color : Option CesColor
  heightReference : HeightReference
  verticalOrigin : VerticalOrigin
  position : Cartesian3
deriving DecidableEq

/-- A Cesium billboard: its creation options plus the picking back-reference
installed by `setReferenceForPicking`. -/
structure Billboard where
  options : BbOptions
  ref : Option PickRef

/-- The options record passed to `labels.add`. -/
structure LabelOptions where
  position : Cartesian3
  text : String
  heightReference : HeightReference
  pixelOffset : Option (ℚ × ℚ)
  font : Option String
  fillColor : Option CesColor
  outlineWidth : Option ℚ
  outlineColor : Option CesColor
  style : Option LabelStyle
  horizontalOrigin : Option HorizontalOrigin
  verticalOrigin : Option VerticalOrigin

/-- A Cesium label: its creation options plus the picking back-reference. -/
structure Label where
  options : LabelOptions
  ref : Option PickRef

/-- A renderable produced by the converter: a Cesium primitive, primitive
collection or label collection.  Each constructor carries the picking
back-reference (`olLayer`/`olFeature`), `none` when `setReferenceForPicking`
was never called on that object. -/
inductive Renderable where
  /-- `new Cesium.Primitive({geometryInstances, appearance})` with a
  per-instance color appearance, as built by `createColoredPrimitive`. -/
  | coloredPrim (geom : CesGeometry) (color : CesColor) (lineWidth : Option ℚ)
      (ref : Option PickRef)
  /-- `new Cesium.Primitive({geometryInstances, appearance})` with a
  `PolylineMaterialAppearance`, as built by `olLineStringGeometryToCesium`. -/
  | polylinePrim (geom : CesGeometry) (material : Option Material)
      (ref : Option PickRef)
  /-- `new Cesium.Primitive()` (the empty placeholder primitive used when a
  point style has a text component). -/
  | emptyPrim (ref : Option PickRef)
  /-- `new Cesium.PrimitiveCollection()` with the listed members added in
  order. -/
  | collection (items : List Renderable) (ref : Option PickRef)
  /-- `new Cesium.LabelCollection({scene})` with the listed labels added. -/
  | labelCollection (labels : List Label) (ref : Option PickRef)

/-- The picking back-reference carried by a renderable itself. -/
def Renderable.refOf : Renderable → Option PickRef
  | .coloredPrim _ _ _ r => r
  | .polylinePrim _ _ r => r
  | .emptyPrim r => r
  | .collection _ r => r
  | .labelCollection _ r => r

/-- `setReferenceForPicking(layer, feature, primitive)`:
`primitive.olLayer = layer; primitive.olFeature = feature`. -/
def setReferenceForPicking (layer : Layer) (feature : Feature) :
    Renderable → Renderable
  | .coloredPrim g c w _ => .coloredPrim g c w (some (layer, feature))
  | .polylinePrim g m _ => .polylinePrim g m (some (layer, feature))
  | .emptyPrim _ => .emptyPrim (some (layer, feature))
  | .collection items _ => .collection items (some (layer, feature))
  | .labelCollection ls _ => .labelCollection ls (some (layer, feature))

/-- `createColoredPrimitive(layer, feature, geometry, color, opt_lineWidth)`:
a flat per-instance-color primitive carrying the geometry and color, with
`renderState.lineWidth` set only when `opt_lineWidth` is defined, and the
picking reference installed before returning. -/
def createColoredPrimitive (layer : Layer) (feature : Feature)
    (geometry : CesGeometry) (color : CesColor) (lineWidth : Option ℚ) :
    Renderable :=
  setReferenceForPicking layer feature (.coloredPrim geometry color lineWidth none)

/-- `extractColorFromOlStyle(style, outline)`: stroke color if `outline` and a
stroke exists, else fill color if present, else `'black'`; converted by
`olcs.core.convertColorToCesium`. -/
def extractColorFromOlStyle (style : StyleColorView) (outline : Bool) : CesColor :=
  let fillColor : Option OlColor := style.fill.map Fill.color
  let strokeColor : Option OlColor := style.stroke.map Stroke.color
  let olColor : OlColor :=
    match strokeColor, outline with
    | some sc, true => sc
    | _, _ =>
        match fillColor with
        | some fc => fc
        | none => "black"
  CesColor.fromOlColor olColor

/-- `extractLineWidthFromOlStyle(style)`: the stroke width (1 when there is no
stroke), clamped by `Math.min` to `scene.maximumAliasedLineWidth`. -/
def extractLineWidthFromOlStyle (env : CoreEnv) (style : StyleColorView) : ℚ :=
  let width : ℚ :=
    match style.stroke with
    | some st => st.width
    | none => 1
  min width env.scene.maximumAliasedLineWidth

/-- `wrapFillAndOutlineGeometries(layer, feature, fillGeometry,
outlineGeometry, olStyle)`: a primitive collection holding a fill primitive
when the style has a fill and an outline primitive (with line width) when it
has a stroke. -/
def wrapFillAndOutlineGeometries (env : CoreEnv) (layer : Layer)
    (feature : Feature) (fillGeometry outlineGeometry : CesGeometry)
    (olStyle : Style) : Renderable :=
  let fillColor := extractColorFromOlStyle olStyle.colorView false
  let outlineColor := extractColorFromOlStyle olStyle.colorView true
  let fillItems : List Renderable :=
    match olStyle.fill with
    | some _ => [createColoredPrimitive layer feature fillGeometry fillColor none]
    | none => []
  let outlineItems : List Renderable :=
    match olStyle.stroke with
    | some _ =>
        [createColoredPrimitive layer feature outlineGeometry outlineColor
          (some (extractLineWidthFromOlStyle env olStyle.colorView))]
    | none => []
  .collection (fillItems ++ outlineItems) none

/-- `olStyleToCesium(feature, style, outline)`: null when the requested side
has no style component; a stripe material when an outline with a (truthy)
line dash is requested; a flat color material otherwise. -/
def olStyleToCesium (feature : Feature) (style : Style) (outline : Bool) :
    Option Material :=
  -- if ((outline && !stroke) || (!outline && !fill)) return null;
  -- after the guard, the needed component is present.
  match outline, style.stroke with
  | true, none => none
  | true, some stroke =>
      let color := CesColor.fromOlColor stroke.color
      if stroke.lineDash.isSome then
        some (.stripe false 500 color (.rgba 0 0 0 0))
      else
        some (.flatColor color)
  | false, _ =>
      match style.fill with
      | none => none
      | some fill => some (.flatColor (CesColor.fromOlColor fill.color))

/-- `computePlainStyle(layer, feature, fallbackStyle, resolution)`: evaluate
the feature's own style function, fall back to `fallbackStyle` when the result
is not defined-and-non-null, return JavaScript `null` when the result is
`undefined`, otherwise assert the result is an array and return its first
element.  The `layer` argument is unused, as in the source. -/
def computePlainStyle (layer : Layer) (feature : Feature)
    (fallbackStyle : Option (Feature → ℚ → JSVal (List Style)))
    (resolution : ℚ) : Except String (JSVal Style) :=
  let style0 : JSVal (List Style) :=
    match feature.styleFunction with
    | some f => f resolution
    | none => .undef
  let style1 : JSVal (List Style) :=
    match style0.isDefAndNotNull, fallbackStyle with
    | false, some fb => fb feature resolution
    | _, _ => style0
  match style1 with
  | .undef => .ok .null
  | .null => .error "assert failed: goog.isArray(style)"
  | .val arr =>
      .ok (match arr.head? with
        | some s => .val s
        | none => .undef)

/-- `getHeightReference(layer, feature, geometry)`: the `altitudeMode` hint is
read from the geometry, then the feature, then the layer; `'clampToGround'`
and `'relativeToGround'` map to the corresponding Cesium height references,
anything else to `NONE`. -/
def getHeightReference (layer : Layer) (feature : Feature)
    (geometry : Geometry) : HeightReference :=
  let altitudeMode : Option String :=
    match geometry.altitudeMode with
    | some v => some v
    | none =>
        match feature.altitudeMode with
        | some v => some v
        | none => layer.altitudeMode
  match altitudeMode with
  | some "clampToGround" => .CLAMP_TO_GROUND
  | some "relativeToGround" => .RELATIVE_TO_GROUND
  | _ => .NONE

/-- The `switch (style.getTextAlign())` block: map a (truthy) text alignment
to a horizontal origin, failing on unhandled values; no alignment leaves the
option unset. -/
def alignToHorizontalOrigin : Option String →
    Except String (Option HorizontalOrigin)
  | none => .ok none
  | some "center" => .ok (some .CENTER)
  | some "left" => .ok (some .LEFT)
  | some "right" => .ok (some .RIGHT)
  | some _ => .error "assert failed: unhandled text align"

/-- The `switch (style.getTextBaseline())` block: map a (truthy) text
baseline to a vertical origin, failing on unhandled values; no baseline
leaves the option unset. -/
def baselineToVerticalOrigin : Option String →
    Except String (Option VerticalOrigin)
  | none => .ok none
  | some "top" => .ok (some .TOP)
  | some "middle" => .ok (some .CENTER)
  | some "bottom" => .ok (some .BOTTOM)
  | some "alphabetic" => .ok (some .TOP)
  | some "hanging" => .ok (some .BOTTOM)
  | some _ => .error "assert failed: unhandled baseline"

/-- `olGeometry4326TextPartToCesium(layer, feature, geometry, style)`: builds
one label (asserting the text string is defined, and failing on unhandled
`textAlign` / `textBaseline` values), installs the picking reference on the
label, and returns the containing label collection. -/
def olGeometry4326TextPartToCesium (env : CoreEnv) (layer : Layer)
    (feature : Feature) (geometry : Geometry) (style : TextStyle) :
    Except String Renderable :=
  match style.text with
  | none => .error "assert failed: goog.isDef(text)"
  | some text =>
    -- extentCenter = ol.extent.getCenter(geometry.getExtent());
    -- if SimpleGeometry, extentCenter[2] = first.length == 3 ? first[2] : 0.0
    let c2 := env.extentCenter geometry
    let extentCenter : Coordinate :=
      if geometry.isSimple then
        let first := geometry.firstCoordinate
        [c2.1, c2.2, if first.length = 3 then first.getD 2 0 else 0]
      else
        [c2.1, c2.2]
    let position := env.toCartesian extentCenter
    let heightReference := getHeightReference layer feature geometry
    let pixelOffset : Option (ℚ × ℚ) :=
      if style.offsetX ≠ 0 ∧ style.offsetY ≠ 0 then
        some (style.offsetX, style.offsetY)
      else none
    let fillColor : Option CesColor :=
      match style.fill with
      | some _ => some (extractColorFromOlStyle style.colorView false)
      | none => none
    let outlineWidth : Option ℚ :=
      match style.stroke with
      | some _ => some (extractLineWidthFromOlStyle env style.colorView)
      | none => none
    let outlineColor : Option CesColor :=
      match style.stroke with
      | some _ => some (extractColorFromOlStyle style.colorView true)
      | none => none
    let labelStyle : Option LabelStyle :=
      match style.fill, style.stroke with
      | some _, some _ => some .FILL_AND_OUTLINE
      | none, some _ => some .OUTLINE
      | some _, none => some .FILL
      | none, none => none
    match alignToHorizontalOrigin style.textAlign with
    | .error e => .error e
    | .ok horizontalOrigin =>
        match baselineToVerticalOrigin style.textBaseline with
        | .error e => .error e
        | .ok verticalOrigin =>
            let options : LabelOptions :=
              ⟨position, text, heightReference, pixelOffset, style.font,
                fillColor, outlineWidth, outlineColor, labelStyle,
                horizontalOrigin, verticalOrigin⟩
            -- var l = labels.add(options);
            -- this.setReferenceForPicking(layer, feature, l);
            Except.ok (.labelCollection [⟨options, some (layer, feature)⟩] none)

/-- Append a renderable to a primitive collection (`primitives.add`); only
ever applied to collections. -/
def Renderable.addItem : Renderable → Renderable → Renderable
  | .collection items r, x => .collection (items ++ [x]) r
  | p, _ => p

/-- `addTextStyle(layer, feature, geometry, style, primitive)`: wrap the
primitive in a collection unless it already is one, and add a label when the
style carries a text component (the label builder never returns a null
label). -/
def addTextStyle (env : CoreEnv) (layer : Layer) (feature : Feature)
    (geometry : Geometry) (style : Style) (primitive : Renderable) :
    Except String Renderable := do
  let primitives : Renderable :=
    match primitive with
    | .collection items r => .collection items r
    | p => .collection [p] none
  match style.text with
  | none => Except.ok primitives
  | some text => do
      let label ← olGeometry4326TextPartToCesium env layer feature geometry text
      Except.ok (primitives.addItem label)

/-- `point = center.slice(); point[0] += radius`. -/
def bumpFirst (center : Coordinate) (radius : ℚ) : Coordinate :=
  match center with
  | [] => []
  | x :: rest => (x + radius) :: rest

/-- `olCircleGeometryToCesium(layer, feature, olGeometry, projection,
olStyle)`: reproject the circle, compute the Cesium radius as the
`Cesium.Cartesian3.distance` between the projected center and the projected
center offset by the (reprojected) radius along the first coordinate axis,
build fill and outline circle geometries with that radius, wrap them by
style, and append the optional label. -/
def olCircleGeometryToCesium (env : CoreEnv) (layer : Layer)
    (feature : Feature) (geometry : Geometry) (olStyle : Style) :
    Except String Renderable :=
  match geometry with
  | .circle center0 radius0 altMode =>
      -- olGeometry = olcs.core.olGeometryCloneTo4326(olGeometry, projection)
      let cloned := env.cloneCircle center0 radius0
      let center := cloned.1
      let height : ℚ := if center.length = 3 then center.getD 2 0 else 0
      let point := bumpFirst center cloned.2
      let centerCart := env.toCartesian center
      let pointCart := env.toCartesian point
      -- Accurate computation of straight distance
      let radius := env.dist centerCart pointCart
      let fillGeometry := CesGeometry.circle centerCart radius height
      let outlineGeometry := CesGeometry.circleOutline centerCart radius height height
      let primitives :=
        wrapFillAndOutlineGeometries env layer feature fillGeometry
          outlineGeometry olStyle
      addTextStyle env layer feature (.circle center cloned.2 altMode) olStyle
        primitives
  | _ => .error "assert failed: olGeometry.getType() == Circle"

/-- `olLineStringGeometryToCesium(layer, feature, olGeometry, projection,
olStyle)`: reproject, build a polyline primitive whose material comes from
`olStyleToCesium` (outline side) and whose width from the line-width
extractor, install the picking reference, and append the optional label. -/
def olLineStringGeometryToCesium (env : CoreEnv) (layer : Layer)
    (feature : Feature) (geometry : Geometry) (olStyle : Style) :
    Except String Renderable :=
  match geometry with
  | .lineString coords0 altMode =>
      let coords := env.cloneLineStringCoords coords0
      let positions := env.toCartesians coords
      let material := olStyleToCesium feature olStyle true
      let width := extractLineWidthFromOlStyle env olStyle.colorView
      let outlinePrimitive :=
        setReferenceForPicking layer feature
          (.polylinePrim (.polyline positions width) material none)
      addTextStyle env layer feature (.lineString coords altMode) olStyle
        outlinePrimitive
  | _ => .error "assert failed: olGeometry.getType() == LineString"

/-- `olPolygonGeometryToCesium(layer, feature, olGeometry, projection,
olStyle)`: reproject, assert there is at least one ring, build the nested
polygon hierarchy (first ring's positions on the root node, each further ring
nested one level deeper in `holes`), asserting every ring yields a non-empty
positions array.  The fill geometry receives the root (`polygonHierarchy`
variable), the outline geometry receives the value left in the loop's
`hierarchy` variable, which after the loop is the innermost node. -/
def olPolygonGeometryToCesium (env : CoreEnv) (layer : Layer)
    (feature : Feature) (geometry : Geometry) (olStyle : Style) :
    Except String Renderable :=
  match geometry with
  | .polygon rings0 altMode => do
      let rings := env.clonePolygonRings rings0
      if rings.isEmpty then
        Except.error "assert failed: rings.length > 0"
      else do
        let posRings ← rings.mapM (fun ring => do
          let positions := env.toCartesians ring
          if positions.isEmpty then
            Except.error "assert failed: positions && positions.length > 0"
          else
            Except.ok positions)
        match posRings with
        | [] => Except.error "assert failed: rings.length > 0"
        | outer :: holeRings =>
            let polygonHierarchy : Hierarchy := .node outer (chainHoles holeRings)
            -- after the loop the `hierarchy` variable aliases the innermost
            -- `holes` object it created (or the root when there are no holes)
            let hierarchy := polygonHierarchy.lastNode
            let fillGeometry := CesGeometry.polygon polygonHierarchy true
            let outlineGeometry := CesGeometry.polygonOutline hierarchy true
            let primitives :=
              wrapFillAndOutlineGeometries env layer feature fillGeometry
                outlineGeometry olStyle
            addTextStyle env layer feature (.polygon rings altMode) olStyle
              primitives
  | _ => .error "assert failed: olGeometry.getType() == Polygon"

/-- The billboard-related state threaded through point conversions: the
billboard collection's contents, the list of billboards the
`opt_newBillboardCallback` has been invoked with, and the number of pending
one-shot `'load'` listeners registered by deferred conversions. -/
structure BbState where
  billboards : List Billboard
  cbCalls : List Billboard
  listeners : Nat

/-- `geometry.getCoordinates()` for a point geometry. -/
def pointCoordinates : Geometry → Coordinate
  | .point c _ => c
  | _ => []

/-- `csAddBillboard(billboards, bbOptions, layer, feature, geometry, style)`:
add the billboard to the collection, install the picking reference on it, and
return it. -/
def csAddBillboard (billboards : List Billboard) (bbOptions : BbOptions)
    (layer : Layer) (feature : Feature) : List Billboard × Billboard :=
  let bb : Billboard := ⟨bbOptions, some (layer, feature)⟩
  (billboards ++ [bb], bb)

/-- The `reallyCreateBillboard` closure of `olPointGeometryToCesium`: returns
without effect when the image is null or neither a canvas nor a (decoded)
bitmap image; otherwise builds the billboard options from the projected point
position, the image-style opacity and the height reference, adds the
billboard through `csAddBillboard`, and invokes `opt_newBillboardCallback`
(when supplied) with the new billboard. -/
def reallyCreateBillboard (env : CoreEnv) (layer : Layer) (feature : Feature)
    (geometry : Geometry) (imageStyle : ImageStyle) (hasCallback : Bool)
    (st : BbState) : BbState :=
  if imageStyle.image = JSImage.nullImage then st
  else if !supportedImage imageStyle.image then st
  else
    let center := pointCoordinates geometry
    let position := env.toCartesian center
    let color : Option CesColor :=
      match imageStyle.opacity with
      | some opacity => some (.rgba 1 1 1 opacity)
      | none => none
    let heightReference := getHeightReference layer feature geometry
    let bbOptions : BbOptions :=
      ⟨imageStyle.image, color, heightReference, .BOTTOM, position⟩
    let added := csAddBillboard st.billboards bbOptions layer feature
    { billboards := added.1
      cbCalls := if hasCallback then st.cbCalls ++ [added.2] else st.cbCalls
      listeners := st.listeners }

/-- Firing the one-shot `'load'` listener registered by a deferred point
conversion: the listener is consumed and its body runs
`reallyCreateBillboard`. -/
def fireLoadListener (env : CoreEnv) (layer : Layer) (feature : Feature)
    (geometry : Geometry) (imageStyle : ImageStyle) (hasCallback : Bool)
    (st : BbState) : BbState :=
  reallyCreateBillboard env layer feature geometry imageStyle hasCallback
    { st with listeners := st.listeners - 1 }

/-- `olPointGeometryToCesium(layer, feature, olGeometry, projection, style,
billboards, opt_newBillboardCallback)`: assert the geometry is a point,
reproject it, resolve the icon image (a JavaScript `TypeError` if the style
has no image component), defer billboard creation behind a one-shot `'load'`
listener when the image is a not-yet-loaded bitmap image and create it
synchronously otherwise, and return the label-carrying collection when the
style has a text component, null otherwise. -/
def olPointGeometryToCesium (env : CoreEnv) (layer : Layer) (feature : Feature)
    (geometry : Geometry) (style : Style) (hasCallback : Bool) (st : BbState) :
    Except String (BbState × Option Renderable) :=
  match geometry with
  | .point coords0 altMode =>
      let geometry4326 : Geometry := .point (env.clonePointCoord coords0) altMode
      match style.image with
      | none => .error "TypeError: imageStyle is null"
      | some imageStyle => do
          let st1 : BbState :=
            if instanceofImage imageStyle.image &&
                !isImageLoaded imageStyle.image then
              -- Cesium requires the image to be loaded:
              -- goog.events.listenOnce(image, 'load', reallyCreateBillboard)
              { st with listeners := st.listeners + 1 }
            else
              reallyCreateBillboard env layer feature geometry4326 imageStyle
                hasCallback st
          match style.text with
          | some _ => do
              let wrapped ←
                addTextStyle env layer feature geometry4326 style
                  (.emptyPrim none)
              Except.ok (st1, some wrapped)
          | none => Except.ok (st1, none)
  | _ => .error "assert failed: geometry.getType() == Point"

/-- The per-member point loop of `olMultiGeometryToCesium` for MultiPoint:
convert each point (threading the billboard state) and collect the non-null
results in order. -/
def multiPointMembers (env : CoreEnv) (layer : Layer) (feature : Feature)
    (style : Style) (hasCallback : Bool) :
    List Coordinate → BbState → Except String (BbState × List Renderable)
  | [], st => .ok (st, [])
  | c :: rest, st =>
      match olPointGeometryToCesium env layer feature (.point c none) style
          hasCallback st with
      | .error e => .error e
      | .ok (st1, r) =>
          match multiPointMembers env layer feature style hasCallback rest st1 with
          | .error e => .error e
          | .ok (st2, rs) => .ok (st2, r.toList ++ rs)

/-- `olMultiGeometryToCesium(layer, feature, geometry, projection, olStyle,
billboards, opt_newBillboardCallback)`: dispatch each member of a
multi-geometry through the matching single converter.  MultiPoint with a text
style collects the per-point label collections; MultiPoint without text
converts every point for its billboard side effects and returns null.
Sub-geometries produced by `getPoints` / `getLineStrings` / `getPolygons`
are fresh objects without an `altitudeMode` property. -/
def olMultiGeometryToCesium (env : CoreEnv) (layer : Layer) (feature : Feature)
    (geometry : Geometry) (olStyle : Style) (hasCallback : Bool)
    (st : BbState) : Except String (BbState × Option Renderable) :=
  match geometry with
  | .multiPoint points _ =>
      if olStyle.text.isSome then do
        match multiPointMembers env layer feature olStyle hasCallback points st with
        | .error e => .error e
        | .ok (st1, items) => .ok (st1, some (.collection items none))
      else
        match multiPointMembers env layer feature olStyle hasCallback points st with
        | .error e => .error e
        | .ok (st1, _) => .ok (st1, none)
  | .multiLineString lines _ => do
      let items ← lines.mapM (fun l =>
        olLineStringGeometryToCesium env layer feature (.lineString l none) olStyle)
      .ok (st, some (.collection items none))
  | .multiPolygon polygons _ => do
      let items ← polygons.mapM (fun p =>
        olPolygonGeometryToCesium env layer feature (.polygon p none) olStyle)
      .ok (st, some (.collection items none))
  | _ => .error "assert failed: Unhandled multi geometry type"

/-- The `olcsx.core.OlFeatureToCesiumContext` record: the target projection,
the shared billboard collection, the feature-uid-to-billboard map written by
`newBillboardAddedCallback`, and the number of pending one-shot load
listeners (our bookkeeping for the deferred billboard creations). -/
structure ConvContext where
  projection : Projection
  billboards : List Billboard
  featureToCesiumMap : List (Nat × Billboard)
  pendingListeners : Nat

/-- Setting `map[key] = value` on a JavaScript object modelled as an
association list: replace the binding when the key is present, append it
otherwise. -/
def mapSet {α : Type} : List (Nat × α) → Nat → α → List (Nat × α)
  | [], k, v => [(k, v)]
  | (k', v') :: rest, k, v =>
      if k' = k then (k, v) :: rest else (k', v') :: mapSet rest k v

/-- Split a context into the billboard state passed to a point conversion. -/
def ConvContext.toBbState (ctx : ConvContext) : BbState :=
  ⟨ctx.billboards, [], ctx.pendingListeners⟩

/-- Fold the effects of a point conversion back into the context: the new
billboard collection and pending-listener count, and one
`context.featureToCesiumMap[goog.getUid(feature)] = bb` update per callback
invocation. -/
def ConvContext.applyBbState (ctx : ConvContext) (feature : Feature)
    (st : BbState) : ConvContext :=
  { projection := ctx.projection
    billboards := st.billboards
    featureToCesiumMap :=
      st.cbCalls.foldl (fun m bb => mapSet m feature.uid bb)
        ctx.featureToCesiumMap
    pendingListeners := st.listeners }

mutual

/-- The dispatch body of `olFeatureToCesium(layer, feature, style, context,
opt_geom)` once a geometry is at hand: dispatch on the geometry type, thread
the context through point and multi conversions (whose
`newBillboardAddedCallback` records the billboard in
`context.featureToCesiumMap`), recurse member-wise on geometry collections,
and fail on a bare LinearRing. -/
def olFeatureToCesiumGeom (env : CoreEnv) (layer : Layer) (feature : Feature)
    (style : Style) (geom : Geometry) (context : ConvContext) :
    Except String (ConvContext × Option Renderable) :=
  match geom with
  | .geometryCollection geometries _ =>
      match olGeometryCollectionMembers env layer feature style geometries
          context with
      | .error e => .error e
      | .ok (ctx1, items) => .ok (ctx1, some (.collection items none))
  | .point coords altMode =>
      match olPointGeometryToCesium env layer feature (.point coords altMode)
          style true context.toBbState with
      | .error e => .error e
      | .ok (st, result) =>
          -- if (!result) return null; else return result;
          .ok (context.applyBbState feature st, result)
  | .circle center radius altMode =>
      match olCircleGeometryToCesium env layer feature
          (.circle center radius altMode) style with
      | .error e => .error e
      | .ok r => .ok (context, some r)
  | .lineString coords altMode =>
      match olLineStringGeometryToCesium env layer feature
          (.lineString coords altMode) style with
      | .error e => .error e
      | .ok r => .ok (context, some r)
  | .polygon rings altMode =>
      match olPolygonGeometryToCesium env layer feature
          (.polygon rings altMode) style with
      | .error e => .error e
      | .ok r => .ok (context, some r)
  | .multiPoint points altMode =>
      match olMultiGeometryToCesium env layer feature
          (.multiPoint points altMode) style true context.toBbState with
      | .error e => .error e
      | .ok (st, result) => .ok (context.applyBbState feature st, result)
  | .multiLineString lines altMode =>
      match olMultiGeometryToCesium env layer feature
          (.multiLineString lines altMode) style true context.toBbState with
      | .error e => .error e
      | .ok (st, result) => .ok (context.applyBbState feature st, result)
  | .multiPolygon polygons altMode =>
      match olMultiGeometryToCesium env layer feature
          (.multiPolygon polygons altMode) style true context.toBbState with
      | .error e => .error e
      | .ok (st, result) => .ok (context.applyBbState feature st, result)
  | .linearRing _ _ => .error "LinearRing should only be part of polygon."

/-- The GeometryCollection member loop of `olFeatureToCesium`: convert each
member geometry recursively and add the non-null results in order. -/
def olGeometryCollectionMembers (env : CoreEnv) (layer : Layer)
    (feature : Feature) (style : Style) (gs : List Geometry)
    (context : ConvContext) :
    Except String (ConvContext × List Renderable) :=
  match gs with
  | [] => .ok (context, [])
  | g :: rest =>
      match olFeatureToCesiumGeom env layer feature style g context with
      | .error e => .error e
      | .ok (ctx1, r) =>
          match olGeometryCollectionMembers env layer feature style rest ctx1 with
          | .error e => .error e
          | .ok (ctx2, rs) => .ok (ctx2, r.toList ++ rs)

end

/-- `olFeatureToCesium(layer, feature, style, context, opt_geom)`: use the
explicit geometry when given, else the feature's; a feature without geometry
produces null. -/
def olFeatureToCesium (env : CoreEnv) (layer : Layer) (feature : Feature)
    (style : Style) (context : ConvContext) (optGeom : Option Geometry) :
    Except String (ConvContext × Option Renderable) :=
  let geom : Option Geometry :=
    match optGeom with
    | some g => some g
    | none => feature.geometry
  match geom with
  | none => .ok (context, none)
  | some g => olFeatureToCesiumGeom env layer feature style g context

/-- Modelled from the spec: `olcs.core.OlLayerPrimitive` is repository code
that is not under src/ (only its caller is).  Per spec section 3 (Conversion
Context) and section 4.7, it is the aggregate renderable collection for one
layer conversion, owning the conversion context (target projection, billboard
container, feature-to-renderable map). -/
structure OlLayerPrimitive where
  context : ConvContext
  items : List Renderable

/-- The loop state of `olVectorLayerToCesium`: the conversion context, the
caller-supplied `featurePrimitiveMap`, and the primitives added to the
aggregate collection so far. -/
structure LayerConvState where
  context : ConvContext
  featurePrimitiveMap : List (Nat × Renderable)
  items : List Renderable

/-- One iteration of the feature loop of `olVectorLayerToCesium`: skip
null-ish features, resolve the style through `computePlainStyle` (a falsy
result skips the feature), convert, and record non-null results in the
feature-primitive map and the aggregate collection. -/
def olVectorLayerFeatureStep (env : CoreEnv) (olLayer : Layer) (resolution : ℚ)
    (state : LayerConvState) (entry : Option Feature) :
    Except String LayerConvState :=
  match entry with
  | none => .ok state
  | some feature =>
      match computePlainStyle olLayer feature olLayer.styleFunction resolution with
      | .error e => .error e
      | .ok styleVal =>
          match styleVal with
          | .val style =>
              match olFeatureToCesium env olLayer feature style state.context none with
              | .error e => .error e
              | .ok (ctx1, primitives) =>
                  match primitives with
                  | none => .ok { state with context := ctx1 }
                  | some p =>
                      .ok ⟨ctx1,
                        mapSet state.featurePrimitiveMap feature.uid p,
                        state.items ++ [p]⟩
          | _ => .ok state

/-- `olVectorLayerToCesium(olLayer, olView, featurePrimitiveMap)`: fail
fatally (`throw new Error('View not ready')`) when the view has no defined
resolution or no projection; otherwise create the layer primitive with a
fresh context and run the feature loop, returning the aggregate collection
and the updated feature-primitive map. -/
def olVectorLayerToCesium (env : CoreEnv) (olLayer : Layer) (olView : View)
    (featurePrimitiveMap : List (Nat × Renderable)) :
    Except String (OlLayerPrimitive × List (Nat × Renderable)) :=
  match olView.resolution, olView.projection with
  | some resolution, some proj =>
      let init : LayerConvState := ⟨⟨proj, [], [], 0⟩, featurePrimitiveMap, []⟩
      match olLayer.features.foldlM (olVectorLayerFeatureStep env olLayer resolution)
          init with
      | .error e => .error e
      | .ok final => .ok (⟨final.context, final.items⟩, final.featurePrimitiveMap)
  | _, _ => .error "View not ready"

/-- `convert(layer, view, feature, context)`: return null (without throwing)
when the view has no defined resolution or no projection; return null when
the resolved style is falsy; otherwise store the projection in the context
and convert the single feature. -/
def convert (env : CoreEnv) (layer : Layer) (view : View) (feature : Feature)
    (context : ConvContext) : Except String (ConvContext × Option Renderable) :=
  match view.resolution, view.projection with
  | some resolution, some proj =>
      match computePlainStyle layer feature layer.styleFunction resolution with
      | .error e => .error e
      | .ok styleVal =>
          match styleVal with
          | .val style =>
              olFeatureToCesium env layer feature style
                { context with projection := proj } none
          | _ => .ok (context, none)
  | _, _ => .ok (context, none)

/-- The `ok` payload of an `Except`, when any. -/
def okValue {ε α : Type} : Except ε α → Option α
  | .ok a => some a
  | .error _ => none

mutual

/-- All Cesium geometries passed to primitive constructors inside a
renderable tree, in order. -/
def cesGeomsOf : Renderable → List CesGeometry
  | .coloredPrim g _ _ _ => [g]
  | .polylinePrim g _ _ => [g]
  | .emptyPrim _ => []
  | .collection items _ => cesGeomsOfList items
  | .labelCollection _ _ => []

/-- `cesGeomsOf` over a list of renderables. -/
def cesGeomsOfList : List Renderable → List CesGeometry
  | [] => []
  | r :: rest => cesGeomsOf r ++ cesGeomsOfList rest

end

/-- The radius option of a circle or circle-outline geometry. -/
def geomCircleRadii : CesGeometry → List ℚ
  | .circle _ r _ => [r]
  | .circleOutline _ r _ _ => [r]
  | _ => []

/-- All radii passed to `Cesium.CircleGeometry` / `Cesium.CircleOutlineGeometry`
constructors inside a renderable tree. -/
def circleRadiiOf (r : Renderable) : List ℚ :=
  ((cesGeomsOf r).map geomCircleRadii).flatten

/-- The polygon hierarchy passed to a `Cesium.PolygonOutlineGeometry`. -/
def outlineHierOf : CesGeometry → Option Hierarchy
  | .polygonOutline h _ => some h
  | _ => none

/-- The polygon hierarchy passed to a `Cesium.PolygonGeometry`. -/
def fillHierOf : CesGeometry → Option Hierarchy
  | .polygon h _ => some h
  | _ => none

/-- A concrete projection for tests: each coordinate is read off as a
Cartesian directly. -/
def idCart (c : Coordinate) : Cartesian3 := ⟨c.getD 0 0, c.getD 1 0, c.getD 2 0⟩

/-- A concrete external environment for closed evaluations: identity
reprojection, `Cesium.Cartesian3.distance` returning 5, and a line-width
ceiling of 8. -/
def testEnv : CoreEnv :=
  ⟨⟨8⟩, idCart, fun l => l.map idCart, fun _ _ => 5, id, id, id,
    fun c r => (c, r), fun _ => (0, 0)⟩

/-- A concrete layer with no features and no style function. -/
def testLayer : Layer := ⟨[], none, none⟩

/-- A concrete feature with no geometry and no style function. -/
def testFeature : Feature := ⟨7, none, none, none⟩

/-- C7: for every style (plain or text), `extractLineWidthFromOlStyle` returns
the style's stroke width — defaulting to 1 when there is no stroke — clamped
by `Math.min` to the renderer's maximum aliased line width, so the result
never exceeds that maximum. -/
theorem c7_line_width_clamped :
    ∀ (env : CoreEnv) (style : StyleColorView),
      (∀ st, style.stroke = some st →
          extractLineWidthFromOlStyle env style =
            min st.width env.scene.maximumAliasedLineWidth) ∧
      (style.stroke = none →
          extractLineWidthFromOlStyle env style =
            min 1 env.scene.maximumAliasedLineWidth) ∧
      extractLineWidthFromOlStyle env style ≤
        env.scene.maximumAliasedLineWidth := by
  intro env style
  refine ⟨?_, ?_, ?_⟩
  · intro st hst
    simp [extractLineWidthFromOlStyle, hst]
  · intro hst
    simp [extractLineWidthFromOlStyle, hst]
  · cases hst : style.stroke <;>
      simp [extractLineWidthFromOlStyle, hst, min_le_right]

/-- C7 witness: stroke width 50 with maximum 8 yields 8, and the no-stroke
default is 1 (maximum 8). -/
theorem c7_line_width_clamped_witness :
    extractLineWidthFromOlStyle testEnv ⟨none, some ⟨"black", 50, none⟩⟩ = 8 ∧
    extractLineWidthFromOlStyle testEnv ⟨none, none⟩ = 1 := by
  have h1 := (c7_line_width_clamped testEnv ⟨none, some ⟨"black", 50, none⟩⟩).1
    ⟨"black", 50, none⟩ rfl
  have h2 := (c7_line_width_clamped testEnv ⟨none, none⟩).2.1 rfl
  rw [h1, h2]
  norm_num [testEnv, min_def]

/-- C6: `olStyleToCesium` returns null exactly when the requested side has no
style component (outline with no stroke, fill with no fill); an outline
request on a stroke with a (truthy) line dash yields a stripe material, any
other non-null case a flat color material; a stroke-only style yields a
material for outline=true and null for outline=false. -/
theorem c6_style_to_material :
    (∀ (feature : Feature) (style : Style) (outline : Bool),
        olStyleToCesium feature style outline = none ↔
          ((outline = true ∧ style.stroke = none) ∨
            (outline = false ∧ style.fill = none))) ∧
    (∀ (feature : Feature) (style : Style) (st : Stroke),
        style.stroke = some st → st.lineDash.isSome →
        olStyleToCesium feature style true =
          some (.stripe false 500 (.fromOlColor st.color) (.rgba 0 0 0 0))) ∧
    (∀ (feature : Feature) (style : Style) (st : Stroke),
        style.stroke = some st → st.lineDash = none →
        olStyleToCesium feature style true =
          some (.flatColor (.fromOlColor st.color))) ∧
    (∀ (feature : Feature) (style : Style) (f : Fill),
        style.fill = some f →
        olStyleToCesium feature style false =
          some (.flatColor (.fromOlColor f.color))) ∧
    (∀ (feature : Feature) (style : Style) (st : Stroke),
        style.fill = none → style.stroke = some st →
        (olStyleToCesium feature style true).isSome ∧
        olStyleToCesium feature style false = none) := by
  refine ⟨?_, ?_, ?_, ?_, ?_⟩
  · intro feature style outline
    cases outline with
    | false =>
        cases hf : style.fill <;> simp [olStyleToCesium, hf]
    | true =>
        cases hs : style.stroke with
        | none => simp [olStyleToCesium, hs]
        | some st =>
            simp only [olStyleToCesium, hs]
            split <;> simp [hs]
  · intro feature style st hs hd
    simp [olStyleToCesium, hs, hd]
  · intro feature style st hs hd
    simp [olStyleToCesium, hs, hd]
  · intro feature style f hf
    simp [olStyleToCesium, hf]
  · intro feature style st hf hs
    constructor
    · simp only [olStyleToCesium, hs]
      split <;> simp
    · simp [olStyleToCesium, hf]

/-- C6 witness: a concrete stroke-only style yields a material for the
outline side and null for the fill side. -/
theorem c6_style_to_material_witness :
    (olStyleToCesium testFeature ⟨none, some ⟨"blue", 2, none⟩, none, none⟩
        true).isSome ∧
    olStyleToCesium testFeature ⟨none, some ⟨"blue", 2, none⟩, none, none⟩
        false = none :=
  c6_style_to_material.2.2.2.2 testFeature
    ⟨none, some ⟨"blue", 2, none⟩, none, none⟩ ⟨"blue", 2, none⟩ rfl rfl

/-- A feature whose own style function yields a (non-empty) style array. -/
def c4StyledFeature : Feature :=
  ⟨2, none, some (fun _ => .val [⟨none, none, none, none⟩]), none⟩

/-- C4 counterexample: the claim says that when neither resolver yields a
style the function returns null; but a fallback style function that yields
JavaScript `null` (rather than `undefined`) passes the `goog.isDef` check and
then fails the `goog.isArray` assertion, so `computePlainStyle` raises a
fatal assertion failure instead of returning null. -/
theorem c4_resolve_style_counterexample :
    computePlainStyle testLayer testFeature (some (fun _ _ => .null)) 10 =
      .error "assert failed: goog.isArray(style)" ∧
    computePlainStyle testLayer testFeature (some (fun _ _ => .null)) 10 ≠
      .ok .null :=
  ⟨rfl, fun h => Except.noConfusion h⟩

/-- C4 (amended): `computePlainStyle` evaluates the feature's own style
function at the given resolution when it exists; when that yields `undefined`
or `null` it evaluates the fallback (layer) style function; when the final
result is `undefined` (in particular when neither function exists) it returns
null; when the resolver yields an array of style candidates exactly the first
element is returned (`undefined` for an empty array); but when the final
result is `null` (not `undefined`) the array assertion fails fatally instead
of returning null. -/
theorem c4_resolve_style_amended :
    ∀ (layer : Layer) (feature : Feature)
      (fb : Option (Feature → ℚ → JSVal (List Style))) (res : ℚ),
      (∀ g s rest, feature.styleFunction = some g → g res = .val (s :: rest) →
          computePlainStyle layer feature fb res = .ok (.val s)) ∧
      (∀ h s rest,
          (match feature.styleFunction with
            | some g => g res
            | none => .undef).isDefAndNotNull = false →
          fb = some h → h feature res = .val (s :: rest) →
          computePlainStyle layer feature fb res = .ok (.val s)) ∧
      (feature.styleFunction = none → fb = none →
          computePlainStyle layer feature fb res = .ok .null) ∧
      (∀ g, feature.styleFunction = some g → g res = .undef → fb = none →
          computePlainStyle layer feature fb res = .ok .null) ∧
      (∀ h,
          (match feature.styleFunction with
            | some g => g res
            | none => .undef).isDefAndNotNull = false →
          fb = some h → h feature res = .undef →
          computePlainStyle layer feature fb res = .ok .null) ∧
      (∀ g, feature.styleFunction = some g → g res = .null → fb = none →
          computePlainStyle layer feature fb res =
            .error "assert failed: goog.isArray(style)") ∧
      (∀ h,
          (match feature.styleFunction with
            | some g => g res
            | none => .undef).isDefAndNotNull = false →
          fb = some h → h feature res = .null →
          computePlainStyle layer feature fb res =
            .error "assert failed: goog.isArray(style)") ∧
      (∀ g, feature.styleFunction = some g → g res = .val [] →
          computePlainStyle layer feature fb res = .ok .undef) := by
  intro layer feature fb res
  refine ⟨?_, ?_, ?_, ?_, ?_, ?_, ?_, ?_⟩
  · intro g s rest hg hv
    simp [computePlainStyle, hg, hv, JSVal.isDefAndNotNull]
  · intro h s rest hdef hfb hv
    cases hsf : feature.styleFunction with
    | none => simp [computePlainStyle, hsf, hfb, hv, JSVal.isDefAndNotNull]
    | some g =>
        rw [hsf] at hdef
        simp [computePlainStyle, hsf, hdef, hfb, hv]
  · intro hsf hfb
    simp [computePlainStyle, hsf, hfb, JSVal.isDefAndNotNull]
  · intro g hsf hv hfb
    simp [computePlainStyle, hsf, hv, hfb, JSVal.isDefAndNotNull]
  · intro h hdef hfb hv
    cases hsf : feature.styleFunction with
    | none => simp [computePlainStyle, hsf, hfb, hv, JSVal.isDefAndNotNull]
    | some g =>
        rw [hsf] at hdef
        simp [computePlainStyle, hsf, hdef, hfb, hv]
  · intro g hsf hv hfb
    simp [computePlainStyle, hsf, hv, hfb, JSVal.isDefAndNotNull]
  · intro h hdef hfb hv
    cases hsf : feature.styleFunction with
    | none => simp [computePlainStyle, hsf, hfb, hv, JSVal.isDefAndNotNull]
    | some g =>
        rw [hsf] at hdef
        simp [computePlainStyle, hsf, hdef, hfb, hv]
  · intro g hsf hv
    simp [computePlainStyle, hsf, hv, JSVal.isDefAndNotNull]

/-- C4 witness: a feature style function yielding a one-element array
resolves to that element, and a feature/layer pair with no style function at
all resolves to null. -/
theorem c4_resolve_style_amended_witness :
    computePlainStyle testLayer c4StyledFeature none 5 =
      .ok (.val ⟨none, none, none, none⟩) ∧
    computePlainStyle testLayer testFeature none 5 = .ok .null := by
  constructor
  · exact (c4_resolve_style_amended testLayer c4StyledFeature none 5).1
      (fun _ => .val [⟨none, none, none, none⟩]) ⟨none, none, none, none⟩ []
      rfl rfl
  · exact (c4_resolve_style_amended testLayer testFeature none 5).2.2.1 rfl rfl

/-- `cesGeomsOfList` distributes over list append. -/
theorem cesGeomsOfList_append (a b : List Renderable) :
    cesGeomsOfList (a ++ b) = cesGeomsOfList a ++ cesGeomsOfList b := by
  induction a with
  | nil => simp [cesGeomsOfList]
  | cons r rest ih => simp [cesGeomsOfList, ih, List.cons_append]

/-- A successful label build passes no geometry to any primitive
constructor. -/
theorem textPart_ok_cesGeoms (env : CoreEnv) (l : Layer) (f : Feature)
    (g : Geometry) (ts : TextStyle) (r : Renderable)
    (h : olGeometry4326TextPartToCesium env l f g ts = .ok r) :
    cesGeomsOf r = [] := by
  unfold olGeometry4326TextPartToCesium at h
  cases hts : ts.text with
  | none => rw [hts] at h; exact Except.noConfusion h
  | some t =>
      rw [hts] at h
      cases hha : alignToHorizontalOrigin ts.textAlign with
      | error e => rw [hha] at h; exact Except.noConfusion h
      | ok ho =>
          rw [hha] at h
          cases hvb : baselineToVerticalOrigin ts.textBaseline with
          | error e => rw [hvb] at h; exact Except.noConfusion h
          | ok vo =>
              rw [hvb] at h
              injection h with h
              subst h
              rfl

/-- `addTextStyle` preserves the constructor geometries of its input
primitive (the optional label contributes none). -/
theorem cesGeoms_addTextStyle (env : CoreEnv) (l : Layer) (f : Feature)
    (g : Geometry) (st : Style) (p : Renderable) (out : Renderable)
    (h : addTextStyle env l f g st p = .ok out) :
    cesGeomsOf out = cesGeomsOf p := by
  unfold addTextStyle at h
  cases hst : st.text with
  | none =>
      rw [hst] at h
      cases p <;>
        (simp only [] at h; injection h with h; subst h;
         simp [cesGeomsOf, cesGeomsOfList])
  | some t =>
      rw [hst] at h
      simp only [bind, Except.bind] at h
      cases p <;>
        · simp only [] at h
          cases htp : olGeometry4326TextPartToCesium env l f g t with
          | error e => rw [htp] at h; exact Except.noConfusion h
          | ok lbl =>
              rw [htp] at h
              simp only [] at h
              injection h with h
              subst h
              simp [Renderable.addItem, cesGeomsOf, cesGeomsOfList,
                cesGeomsOfList_append,
                textPart_ok_cesGeoms env l f g t lbl htp]

/-- The geometries inside a `wrapFillAndOutlineGeometries` result: the fill
geometry when the style has a fill, then the outline geometry when it has a
stroke. -/
theorem cesGeoms_wrapFill (env : CoreEnv) (l : Layer) (f : Feature)
    (fg og : CesGeometry) (st : Style) :
    cesGeomsOf (wrapFillAndOutlineGeometries env l f fg og st) =
      (match st.fill with | some _ => [fg] | none => []) ++
      (match st.stroke with | some _ => [og] | none => []) := by
  cases hf : st.fill <;> cases hs : st.stroke <;>
    simp [wrapFillAndOutlineGeometries, hf, hs, cesGeomsOf, cesGeomsOfList,
      createColoredPrimitive, setReferenceForPicking]

/-- C2: every radius passed to the circle fill and outline geometry
constructors equals `Cesium.Cartesian3.distance` between the projected
(reprojected) center and the projected center offset by the (reprojected)
source radius along the first coordinate axis — one such geometry per style
side present — and a concrete run shows this is not the raw source radius
(raw radius 1, projected distance 5). -/
theorem c2_circle_radius_projected_distance :
    (∀ (env : CoreEnv) (layer : Layer) (feature : Feature)
        (center0 : Coordinate) (radius0 : ℚ) (altMode : Option String)
        (style : Style) (out : Renderable),
        olCircleGeometryToCesium env layer feature
            (.circle center0 radius0 altMode) style = .ok out →
        (∀ ρ ∈ circleRadiiOf out,
            ρ = env.dist (env.toCartesian (env.cloneCircle center0 radius0).1)
              (env.toCartesian (bumpFirst (env.cloneCircle center0 radius0).1
                (env.cloneCircle center0 radius0).2))) ∧
        (circleRadiiOf out).length =
          (if style.fill.isSome then 1 else 0) +
            (if style.stroke.isSome then 1 else 0)) ∧
    (okValue (olCircleGeometryToCesium testEnv testLayer testFeature
        (.circle [0, 0] 1 none) ⟨some ⟨"red"⟩, none, none, none⟩)).map
      circleRadiiOf = some [5] ∧
    (5 : ℚ) ≠ 1 := by
  refine ⟨?_, rfl, by norm_num⟩
  intro env layer feature center0 radius0 altMode style out h
  simp only [olCircleGeometryToCesium] at h
  have hg := cesGeoms_addTextStyle _ _ _ _ _ _ _ h
  rw [cesGeoms_wrapFill] at hg
  constructor
  · intro ρ hρ
    cases hf : style.fill <;> cases hs : style.stroke <;>
      (rw [hf, hs] at hg;
       simp [circleRadiiOf, hg, geomCircleRadii] at hρ) <;>
      simp [hρ]
  · cases hf : style.fill <;> cases hs : style.stroke <;>
      (rw [hf, hs] at hg; simp [circleRadiiOf, hg, geomCircleRadii, hf, hs])

/-- C2 witness: a concrete circle conversion (fill-and-stroke style) under
the test environment, whose constant distance function returns 5, passes
radius 5 to both circle constructors. -/
theorem c2_circle_radius_projected_distance_witness :
    ∀ ρ ∈ circleRadiiOf
        ((okValue (olCircleGeometryToCesium testEnv testLayer testFeature
          (.circle [0, 0] 1 none)
          ⟨some ⟨"red"⟩, some ⟨"black", 2, none⟩, none, none⟩)).getD
          (.emptyPrim none)),
      ρ = testEnv.dist (testEnv.toCartesian [0, 0])
        (testEnv.toCartesian (bumpFirst [0, 0] 1)) := by
  intro ρ hρ
  exact (c2_circle_radius_projected_distance.1 testEnv testLayer testFeature
    [0, 0] 1 none ⟨some ⟨"red"⟩, some ⟨"black", 2, none⟩, none, none⟩ _ rfl).1
    ρ hρ

/-- The concrete one-hole polygon demonstrating the outline-hierarchy slip:
an outer boundary ring and a single hole ring. -/
def c1Rings : List (List Coordinate) :=
  [[[0, 0], [4, 0], [4, 4], [0, 4]],
   [[1, 1], [2, 1], [2, 2], [1, 2]]]

/-- A fill-and-stroke style with no text and no icon. -/
def c1Style : Style := ⟨some ⟨"red"⟩, some ⟨"black", 2, none⟩, none, none⟩

/-- C1 (code bug): for the concrete polygon with N = 1 hole, the fill
geometry's hierarchy does carry exactly N = 1 hole entry, but the outline
geometry is constructed from the loop-clobbered `hierarchy` variable — the
innermost hole node — so it carries exactly 1 ring boundary instead of the
claimed N + 1 = `c1Rings.length` = 2 (the saved `polygonHierarchy` root is
used only for the fill geometry). -/
theorem c1_polygon_outline_hierarchy_bug :
    (okValue (olPolygonGeometryToCesium testEnv testLayer testFeature
        (.polygon c1Rings none) c1Style)).map
      (fun out => ((cesGeomsOf out).filterMap fillHierOf).map
        Hierarchy.holeCount) = some [1] ∧
    (okValue (olPolygonGeometryToCesium testEnv testLayer testFeature
        (.polygon c1Rings none) c1Style)).map
      (fun out => ((cesGeomsOf out).filterMap outlineHierOf).map
        Hierarchy.ringCount) = some [1] ∧
    (okValue (olPolygonGeometryToCesium testEnv testLayer testFeature
        (.polygon c1Rings none) c1Style)).map
      (fun out => ((cesGeomsOf out).filterMap outlineHierOf).map
        Hierarchy.ringCount) ≠ some [c1Rings.length] := by
  have h : (okValue (olPolygonGeometryToCesium testEnv testLayer testFeature
      (.polygon c1Rings none) c1Style)).map
      (fun out => ((cesGeomsOf out).filterMap outlineHierOf).map
        Hierarchy.ringCount) = some [1] := by rfl
  refine ⟨by rfl, h, ?_⟩
  rw [h]
  decide

/-- The billboard built by `reallyCreateBillboard` for a supported image:
options `{image, color (white with the image-style opacity, when defined),
heightReference, verticalOrigin: BOTTOM, position}` plus the picking
reference installed by `csAddBillboard`. -/
def pointBillboard (env : CoreEnv) (layer : Layer) (feature : Feature)
    (geometry : Geometry) (imageStyle : ImageStyle) : Billboard :=
  ⟨⟨imageStyle.image,
    (match imageStyle.opacity with
      | some opacity => some (.rgba 1 1 1 opacity)
      | none => none),
    getHeightReference layer feature geometry, .BOTTOM,
    env.toCartesian (pointCoordinates geometry)⟩,
    some (layer, feature)⟩

/-- A bitmap image is in particular a supported image kind. -/
theorem instanceofImage_supported (i : JSImage)
    (h : instanceofImage i = true) : supportedImage i = true := by
  cases i <;> simp_all [instanceofImage, supportedImage]

/-- `reallyCreateBillboard` on a supported image appends exactly the
`pointBillboard` to the collection and (when a callback was supplied) to the
callback invocations. -/
theorem reallyCreateBillboard_supported (env : CoreEnv) (layer : Layer)
    (feature : Feature) (geometry : Geometry) (imageStyle : ImageStyle)
    (hasCallback : Bool) (st : BbState)
    (h : supportedImage imageStyle.image = true) :
    reallyCreateBillboard env layer feature geometry imageStyle hasCallback st =
      ⟨st.billboards ++ [pointBillboard env layer feature geometry imageStyle],
        if hasCallback then
          st.cbCalls ++ [pointBillboard env layer feature geometry imageStyle]
        else st.cbCalls,
        st.listeners⟩ := by
  cases himg : imageStyle.image <;>
    simp_all [reallyCreateBillboard, supportedImage, csAddBillboard,
      pointBillboard, pointCoordinates]

/-- `reallyCreateBillboard` on a null or unsupported image is the
identity: no billboard is added, no callback invoked, no error raised. -/
theorem reallyCreateBillboard_unsupported (env : CoreEnv) (layer : Layer)
    (feature : Feature) (geometry : Geometry) (imageStyle : ImageStyle)
    (hasCallback : Bool) (st : BbState)
    (h : supportedImage imageStyle.image = false) :
    reallyCreateBillboard env layer feature geometry imageStyle hasCallback st =
      st := by
  cases himg : imageStyle.image <;>
    simp_all [reallyCreateBillboard, supportedImage]

/-- `addTextStyle` on the point placeholder primitive: no text gives the
one-element collection, text gives the placeholder plus the built label. -/
theorem addTextStyle_emptyPrim (env : CoreEnv) (l : Layer) (f : Feature)
    (g : Geometry) (st : Style) :
    (st.text = none →
        addTextStyle env l f g st (.emptyPrim none) =
          .ok (.collection [.emptyPrim none] none)) ∧
    (∀ ts lbl, st.text = some ts →
        olGeometry4326TextPartToCesium env l f g ts = .ok lbl →
        addTextStyle env l f g st (.emptyPrim none) =
          .ok (.collection [.emptyPrim none, lbl] none)) := by
  constructor
  · intro h
    simp [addTextStyle, h]
  · intro ts lbl h htp
    simp [addTextStyle, h, htp, Renderable.addItem, bind, Except.bind]

/-- C8: when the resolved icon image is null or neither a canvas nor a bitmap
image, billboard creation is skipped silently — `reallyCreateBillboard`
leaves the billboard state untouched, the point conversion raises no error
and produces no billboard renderable, and the label (when the style has one
that builds successfully) is still produced. -/
theorem c8_unsupported_image_skipped :
    ∀ (env : CoreEnv) (layer : Layer) (feature : Feature)
      (coords : Coordinate) (altMode : Option String) (style : Style)
      (imageStyle : ImageStyle) (st : BbState),
      style.image = some imageStyle →
      supportedImage imageStyle.image = false →
      reallyCreateBillboard env layer feature
          (.point (env.clonePointCoord coords) altMode) imageStyle true st =
        st ∧
      (style.text = none →
          olPointGeometryToCesium env layer feature (.point coords altMode)
            style true st = .ok (st, none)) ∧
      (∀ ts lbl, style.text = some ts →
          olGeometry4326TextPartToCesium env layer feature
              (.point (env.clonePointCoord coords) altMode) ts = .ok lbl →
          olPointGeometryToCesium env layer feature (.point coords altMode)
            style true st =
            .ok (st, some (.collection [.emptyPrim none, lbl] none))) := by
  intro env layer feature coords altMode style imageStyle st himg hsup
  have hinst : instanceofImage imageStyle.image = false := by
    cases hi : imageStyle.image <;>
      simp_all [instanceofImage, supportedImage]
  have hrcb := reallyCreateBillboard_unsupported env layer feature
    (.point (env.clonePointCoord coords) altMode) imageStyle true st hsup
  refine ⟨hrcb, ?_, ?_⟩
  · intro htext
    simp [olPointGeometryToCesium, himg, hinst, hrcb, htext]
  · intro ts lbl htext htp
    have hadd := (addTextStyle_emptyPrim env layer feature
      (.point (env.clonePointCoord coords) altMode) style).2 ts lbl htext htp
    simp [olPointGeometryToCesium, himg, hinst, hrcb, htext, hadd, bind,
      Except.bind]

/-- A concrete point style whose icon resolved to an unsupported object. -/
def c8Style : Style := ⟨none, none, none, some ⟨.other 3, none⟩⟩

/-- C8 witness: converting a point whose icon image is an unsupported object
succeeds with no billboard, no callback and no renderable. -/
theorem c8_unsupported_image_skipped_witness :
    olPointGeometryToCesium testEnv testLayer testFeature (.point [0, 0] none)
        c8Style true ⟨[], [], 0⟩ = .ok (⟨[], [], 0⟩, none) ∧
    reallyCreateBillboard testEnv testLayer testFeature (.point [0, 0] none)
        ⟨.other 3, none⟩ true ⟨[], [], 0⟩ = ⟨[], [], 0⟩ := by
  have h := c8_unsupported_image_skipped testEnv testLayer testFeature [0, 0]
    none c8Style ⟨.other 3, none⟩ ⟨[], [], 0⟩ rfl rfl
  exact ⟨h.2.1 rfl, h.1⟩

/-- C3: when the icon image is a not-yet-loaded bitmap image, the point
conversion creates no billboard and invokes no callback synchronously — it
only registers a one-shot `'load'` listener — while still returning the
label-carrying renderable synchronously when the style has a text component
(and null when it has none); firing the registered listener (whose body is
`reallyCreateBillboard`) then creates the billboard and invokes the supplied
new-billboard callback with it. -/
theorem c3_point_deferred_billboard :
    ∀ (env : CoreEnv) (layer : Layer) (feature : Feature)
      (coords : Coordinate) (altMode : Option String) (style : Style)
      (imageStyle : ImageStyle) (st : BbState),
      style.image = some imageStyle →
      instanceofImage imageStyle.image = true →
      isImageLoaded imageStyle.image = false →
      (style.text = none →
          olPointGeometryToCesium env layer feature (.point coords altMode)
            style true st =
            .ok (⟨st.billboards, st.cbCalls, st.listeners + 1⟩, none)) ∧
      (∀ ts lbl, style.text = some ts →
          olGeometry4326TextPartToCesium env layer feature
              (.point (env.clonePointCoord coords) altMode) ts = .ok lbl →
          olPointGeometryToCesium env layer feature (.point coords altMode)
            style true st =
            .ok (⟨st.billboards, st.cbCalls, st.listeners + 1⟩,
              some (.collection [.emptyPrim none, lbl] none))) ∧
      (∀ st' : BbState,
          fireLoadListener env layer feature
              (.point (env.clonePointCoord coords) altMode) imageStyle true
              st' =
            ⟨st'.billboards ++
                [pointBillboard env layer feature
                  (.point (env.clonePointCoord coords) altMode) imageStyle],
              st'.cbCalls ++
                [pointBillboard env layer feature
                  (.point (env.clonePointCoord coords) altMode) imageStyle],
              st'.listeners - 1⟩) := by
  intro env layer feature coords altMode style imageStyle st himg hinst hload
  refine ⟨?_, ?_, ?_⟩
  · intro htext
    simp [olPointGeometryToCesium, himg, hinst, hload, htext]
  · intro ts lbl htext htp
    have hadd := (addTextStyle_emptyPrim env layer feature
      (.point (env.clonePointCoord coords) altMode) style).2 ts lbl htext htp
    simp [olPointGeometryToCesium, himg, hinst, hload, htext, hadd, bind,
      Except.bind]
  · intro st'
    have hsup := instanceofImage_supported imageStyle.image hinst
    have h := reallyCreateBillboard_supported env layer feature
      (.point (env.clonePointCoord coords) altMode) imageStyle true
      ⟨st'.billboards, st'.cbCalls, st'.listeners - 1⟩ hsup
    simpa [fireLoadListener] using h

/-- The concrete feature used by the deferred-billboard run. -/
def c3Feature : Feature := ⟨9, none, none, none⟩

/-- A minimal text component ("hi", no alignment, no offsets). -/
def c3Text : TextStyle := ⟨some "hi", none, 0, 0, none, none, none, none⟩

/-- An icon image style whose bitmap image has not finished loading
(`naturalWidth = naturalHeight = 0`, `complete = false`). -/
def c3ImageStyle : ImageStyle := ⟨.image "u" 0 0 false, none⟩

/-- A point style with a text component and a still-loading icon. -/
def c3Style : Style := ⟨none, none, some c3Text, some c3ImageStyle⟩

/-- The label the test environment builds for that text component. -/
def c3Label : Renderable :=
  .labelCollection [⟨⟨⟨0, 0, 0⟩, "hi", .NONE, none, none, none, none, none,
    none, none, none⟩, some (testLayer, c3Feature)⟩] none

/-- C3 witness: a concrete deferred conversion returns the label immediately
with one pending listener and no billboard; firing the listener then creates
the billboard and invokes the callback. -/
theorem c3_point_deferred_billboard_witness :
    olPointGeometryToCesium testEnv testLayer c3Feature (.point [1, 2] none)
        c3Style true ⟨[], [], 0⟩ =
      .ok (⟨[], [], 1⟩, some (.collection [.emptyPrim none, c3Label] none)) ∧
    fireLoadListener testEnv testLayer c3Feature (.point [1, 2] none)
        c3ImageStyle true ⟨[], [], 1⟩ =
      ⟨[pointBillboard testEnv testLayer c3Feature (.point [1, 2] none)
          c3ImageStyle],
        [pointBillboard testEnv testLayer c3Feature (.point [1, 2] none)
          c3ImageStyle], 0⟩ := by
  have h := c3_point_deferred_billboard testEnv testLayer c3Feature [1, 2]
    none c3Style c3ImageStyle ⟨[], [], 0⟩ rfl rfl rfl
  constructor
  · exact h.2.1 c3Text c3Label rfl rfl
  · exact h.2.2 ⟨[], [], 1⟩

/-- C10: for a point whose style has no text component, the point converter
returns null even when the icon image is already usable and the billboard is
created synchronously; the billboard reaches the caller only through the
new-billboard callback — the context's feature-to-billboard map gains the
entry while the top-level feature conversion also yields null. -/
theorem c10_point_no_text_returns_null :
    ∀ (env : CoreEnv) (layer : Layer) (feature : Feature)
      (coords : Coordinate) (altMode : Option String) (style : Style)
      (imageStyle : ImageStyle) (ctx : ConvContext),
      feature.geometry = some (.point coords altMode) →
      style.image = some imageStyle →
      style.text = none →
      supportedImage imageStyle.image = true →
      (instanceofImage imageStyle.image = true →
          isImageLoaded imageStyle.image = true) →
      olPointGeometryToCesium env layer feature (.point coords altMode) style
          true ctx.toBbState =
        .ok (⟨ctx.billboards ++
            [pointBillboard env layer feature
              (.point (env.clonePointCoord coords) altMode) imageStyle],
          [pointBillboard env layer feature
            (.point (env.clonePointCoord coords) altMode) imageStyle],
          ctx.pendingListeners⟩, none) ∧
      olFeatureToCesium env layer feature style ctx none =
        .ok (⟨ctx.projection,
          ctx.billboards ++
            [pointBillboard env layer feature
              (.point (env.clonePointCoord coords) altMode) imageStyle],
          mapSet ctx.featureToCesiumMap feature.uid
            (pointBillboard env layer feature
              (.point (env.clonePointCoord coords) altMode) imageStyle),
          ctx.pendingListeners⟩, none) := by
  intro env layer feature coords altMode style imageStyle ctx hgeom himg htext
    hsup hload
  have hguard : (instanceofImage imageStyle.image &&
      !isImageLoaded imageStyle.image) = false := by
    cases hi : instanceofImage imageStyle.image with
    | false => simp
    | true => simp [hload hi]
  have hrcb := reallyCreateBillboard_supported env layer feature
    (.point (env.clonePointCoord coords) altMode) imageStyle true
    ctx.toBbState hsup
  simp only [ConvContext.toBbState, if_pos rfl] at hrcb
  have hpoint : olPointGeometryToCesium env layer feature
      (.point coords altMode) style true ctx.toBbState =
      .ok (⟨ctx.billboards ++
          [pointBillboard env layer feature
            (.point (env.clonePointCoord coords) altMode) imageStyle],
        [pointBillboard env layer feature
          (.point (env.clonePointCoord coords) altMode) imageStyle],
        ctx.pendingListeners⟩, none) := by
    simp [olPointGeometryToCesium, himg, hguard, hrcb, htext,
      ConvContext.toBbState]
  refine ⟨hpoint, ?_⟩
  simp [olFeatureToCesium, olFeatureToCesiumGeom, hgeom, hpoint,
    ConvContext.applyBbState, mapSet]

/-- The concrete point feature whose style carries an icon but no text. -/
def c10Feature : Feature := ⟨9, some (.point [1, 2] none), none, none⟩

/-- A canvas-backed icon (already usable, so the billboard is created
synchronously). -/
def c10ImageStyle : ImageStyle := ⟨.canvas 0, none⟩

/-- A point style with an icon and no text component. -/
def c10Style : Style := ⟨none, none, none, some c10ImageStyle⟩

/-- C10 witness: the concrete conversion returns null while the billboard
reaches the context's billboard collection and feature-to-billboard map. -/
theorem c10_point_no_text_returns_null_witness :
    olFeatureToCesium testEnv testLayer c10Feature c10Style
        ⟨"EPSG:4326", [], [], 0⟩ none =
      .ok (⟨"EPSG:4326",
        [pointBillboard testEnv testLayer c10Feature (.point [1, 2] none)
          c10ImageStyle],
        [(9, pointBillboard testEnv testLayer c10Feature (.point [1, 2] none)
          c10ImageStyle)],
        0⟩, none) := by
  have h := (c10_point_no_text_returns_null testEnv testLayer c10Feature
    [1, 2] none c10Style c10ImageStyle ⟨"EPSG:4326", [], [], 0⟩ rfl rfl rfl
    rfl (fun hi => by exact absurd hi (by decide))).2
  simpa [mapSet] using h

/-- C5: with an undefined resolution or missing projection,
`olVectorLayerToCesium` fails fatally with `Error('View not ready')` while
`convert` returns null without throwing; with a ready view, both skip a
feature whose resolved style is falsy and a feature with no geometry — the
layer loop leaves its state (feature-primitive map, aggregate collection,
context) untouched for such features, and `convert` yields null. -/
theorem c5_view_ready_and_skip :
    (∀ (env : CoreEnv) (olLayer : Layer) (olView : View)
        (map : List (Nat × Renderable)),
        olView.resolution = none ∨ olView.projection = none →
        olVectorLayerToCesium env olLayer olView map =
          .error "View not ready") ∧
    (∀ (env : CoreEnv) (layer : Layer) (view : View) (feature : Feature)
        (ctx : ConvContext),
        view.resolution = none ∨ view.projection = none →
        convert env layer view feature ctx = .ok (ctx, none)) ∧
    (∀ (env : CoreEnv) (olLayer : Layer) (resolution : ℚ)
        (state : LayerConvState) (feature : Feature) (sv : JSVal Style),
        computePlainStyle olLayer feature olLayer.styleFunction resolution =
          .ok sv →
        sv.isDefAndNotNull = false →
        olVectorLayerFeatureStep env olLayer resolution state (some feature) =
          .ok state) ∧
    (∀ (env : CoreEnv) (olLayer : Layer) (resolution : ℚ)
        (state : LayerConvState) (feature : Feature) (style : Style),
        computePlainStyle olLayer feature olLayer.styleFunction resolution =
          .ok (.val style) →
        feature.geometry = none →
        olVectorLayerFeatureStep env olLayer resolution state (some feature) =
          .ok state) ∧
    (∀ (env : CoreEnv) (layer : Layer) (view : View) (feature : Feature)
        (ctx : ConvContext) (resolution : ℚ) (proj : Projection)
        (sv : JSVal Style),
        view.resolution = some resolution → view.projection = some proj →
        computePlainStyle layer feature layer.styleFunction resolution =
          .ok sv →
        sv.isDefAndNotNull = false →
        convert env layer view feature ctx = .ok (ctx, none)) ∧
    (∀ (env : CoreEnv) (layer : Layer) (view : View) (feature : Feature)
        (ctx : ConvContext) (resolution : ℚ) (proj : Projection)
        (style : Style),
        view.resolution = some resolution → view.projection = some proj →
        computePlainStyle layer feature layer.styleFunction resolution =
          .ok (.val style) →
        feature.geometry = none →
        convert env layer view feature ctx =
          .ok ({ ctx with projection := proj }, none)) := by
  refine ⟨?_, ?_, ?_, ?_, ?_, ?_⟩
  · intro env olLayer olView map h
    cases hres : olView.resolution <;> cases hproj : olView.projection <;>
      simp_all [olVectorLayerToCesium]
  · intro env layer view feature ctx h
    cases hres : view.resolution <;> cases hproj : view.projection <;>
      simp_all [convert]
  · intro env olLayer resolution state feature sv hstyle hfalsy
    cases sv with
    | undef => simp [olVectorLayerFeatureStep, hstyle]
    | null => simp [olVectorLayerFeatureStep, hstyle]
    | val s => simp [JSVal.isDefAndNotNull] at hfalsy
  · intro env olLayer resolution state feature style hstyle hgeom
    simp [olVectorLayerFeatureStep, hstyle, olFeatureToCesium, hgeom]
  · intro env layer view feature ctx resolution proj sv hres hproj hstyle
      hfalsy
    cases sv with
    | undef => simp [convert, hres, hproj, hstyle]
    | null => simp [convert, hres, hproj, hstyle]
    | val s => simp [JSVal.isDefAndNotNull] at hfalsy
  · intro env layer view feature ctx resolution proj style hres hproj hstyle
      hgeom
    simp [convert, hres, hproj, hstyle, olFeatureToCesium, hgeom]

/-- A feature with a style function yielding a style but no geometry. -/
def c5Feature : Feature :=
  ⟨3, none, some (fun _ => .val [⟨none, none, none, none⟩]), none⟩

/-- C5 witness: a not-ready view makes the layer conversion throw and the
single-feature conversion return null; on a ready view, a style-less feature
and a geometry-less feature leave the loop state untouched. -/
theorem c5_view_ready_and_skip_witness :
    olVectorLayerToCesium testEnv testLayer ⟨none, none⟩ [] =
      .error "View not ready" ∧
    convert testEnv testLayer ⟨none, none⟩ testFeature ⟨"P", [], [], 0⟩ =
      .ok (⟨"P", [], [], 0⟩, none) ∧
    olVectorLayerFeatureStep testEnv testLayer 10 ⟨⟨"P", [], [], 0⟩, [], []⟩
      (some testFeature) = .ok ⟨⟨"P", [], [], 0⟩, [], []⟩ ∧
    olVectorLayerFeatureStep testEnv testLayer 10 ⟨⟨"P", [], [], 0⟩, [], []⟩
      (some c5Feature) = .ok ⟨⟨"P", [], [], 0⟩, [], []⟩ := by
  refine ⟨?_, ?_, ?_, ?_⟩
  · exact c5_view_ready_and_skip.1 testEnv testLayer ⟨none, none⟩ []
      (Or.inl rfl)
  · exact c5_view_ready_and_skip.2.1 testEnv testLayer ⟨none, none⟩
      testFeature ⟨"P", [], [], 0⟩ (Or.inl rfl)
  · exact c5_view_ready_and_skip.2.2.1 testEnv testLayer 10
      ⟨⟨"P", [], [], 0⟩, [], []⟩ testFeature .null rfl rfl
  · exact c5_view_ready_and_skip.2.2.2.1 testEnv testLayer 10
      ⟨⟨"P", [], [], 0⟩, [], []⟩ c5Feature ⟨none, none, none, none⟩ rfl rfl

mutual

/-- The picking-reference invariant of a renderable tree produced for layer
`L` and feature `F`: every leaf primitive built from a geometry and every
label carries the back-reference `(L, F)`, while aggregate collections and
the point-label placeholder primitive carry none themselves. -/
def LeafRefsOk (L : Layer) (F : Feature) : Renderable → Prop
  | .coloredPrim _ _ _ r => r = some (L, F)
  | .polylinePrim _ _ r => r = some (L, F)
  | .emptyPrim r => r = none
  | .collection items r => r = none ∧ LeafRefsOkList L F items
  | .labelCollection ls r => r = none ∧ ∀ lb ∈ ls, lb.ref = some (L, F)

/-- `LeafRefsOk` for every member of a list. -/
def LeafRefsOkList (L : Layer) (F : Feature) : List Renderable → Prop
  | [] => True
  | r :: rest => LeafRefsOk L F r ∧ LeafRefsOkList L F rest

end

/-- `LeafRefsOkList` splits over append. -/
theorem leafRefsOkList_append (L : Layer) (F : Feature)
    (a b : List Renderable) :
    LeafRefsOkList L F (a ++ b) ↔ LeafRefsOkList L F a ∧ LeafRefsOkList L F b := by
  induction a with
  | nil => simp [LeafRefsOkList]
  | cons r rest ih => simp [LeafRefsOkList, ih, List.cons_append, and_assoc]

/-- A successfully built label collection satisfies the reference
invariant: its single label carries the back-reference and the collection
itself carries none. -/
theorem leafRefs_textPart (env : CoreEnv) (l : Layer) (f : Feature)
    (g : Geometry) (ts : TextStyle) (r : Renderable)
    (h : olGeometry4326TextPartToCesium env l f g ts = .ok r) :
    LeafRefsOk l f r := by
  unfold olGeometry4326TextPartToCesium at h
  cases hts : ts.text with
  | none => rw [hts] at h; exact Except.noConfusion h
  | some t =>
      rw [hts] at h
      cases hha : alignToHorizontalOrigin ts.textAlign with
      | error e => rw [hha] at h; exact Except.noConfusion h
      | ok ho =>
          rw [hha] at h
          cases hvb : baselineToVerticalOrigin ts.textBaseline with
          | error e => rw [hvb] at h; exact Except.noConfusion h
          | ok vo =>
              rw [hvb] at h
              injection h with h
              subst h
              simp [LeafRefsOk]

/-- `addTextStyle` preserves the reference invariant. -/
theorem leafRefs_addTextStyle (env : CoreEnv) (l : Layer) (f : Feature)
    (g : Geometry) (st : Style) (p : Renderable) (out : Renderable)
    (hp : LeafRefsOk l f p) (h : addTextStyle env l f g st p = .ok out) :
    LeafRefsOk l f out := by
  unfold addTextStyle at h
  cases hst : st.text with
  | none =>
      rw [hst] at h
      cases p <;>
        (simp only [] at h; injection h with h; subst h;
         simp_all [LeafRefsOk, LeafRefsOkList])
  | some t =>
      rw [hst] at h
      simp only [bind, Except.bind] at h
      cases p <;>
        · simp only [] at h
          cases htp : olGeometry4326TextPartToCesium env l f g t with
          | error e => rw [htp] at h; exact Except.noConfusion h
          | ok lbl =>
              rw [htp] at h
              simp only [] at h
              injection h with h
              subst h
              have hlbl := leafRefs_textPart env l f g t lbl htp
              simp_all [Renderable.addItem, LeafRefsOk, LeafRefsOkList,
                leafRefsOkList_append]

/-- The fill/outline wrapper satisfies the reference invariant: the inner
colored primitives carry the back-reference, the collection itself none. -/
theorem leafRefs_wrap (env : CoreEnv) (l : Layer) (f : Feature)
    (fg og : CesGeometry) (st : Style) :
    LeafRefsOk l f (wrapFillAndOutlineGeometries env l f fg og st) := by
  cases hf : st.fill <;> cases hs : st.stroke <;>
    simp [wrapFillAndOutlineGeometries, hf, hs, LeafRefsOk, LeafRefsOkList,
      createColoredPrimitive, setReferenceForPicking]

/-- The circle converter's output satisfies the reference invariant. -/
theorem leafRefs_circle (env : CoreEnv) (l : Layer) (f : Feature)
    (g : Geometry) (st : Style) (out : Renderable)
    (h : olCircleGeometryToCesium env l f g st = .ok out) :
    LeafRefsOk l f out := by
  cases g <;> try exact Except.noConfusion h
  case circle center radius altMode =>
    simp only [olCircleGeometryToCesium] at h
    exact leafRefs_addTextStyle env l f _ st _ out (leafRefs_wrap env l f _ _ st) h

/-- The line-string converter's output satisfies the reference invariant. -/
theorem leafRefs_lineString (env : CoreEnv) (l : Layer) (f : Feature)
    (g : Geometry) (st : Style) (out : Renderable)
    (h : olLineStringGeometryToCesium env l f g st = .ok out) :
    LeafRefsOk l f out := by
  cases g <;> try exact Except.noConfusion h
  case lineString coords altMode =>
    simp only [olLineStringGeometryToCesium] at h
    refine leafRefs_addTextStyle env l f _ st _ out ?_ h
    simp [setReferenceForPicking, LeafRefsOk]

/-- The polygon converter's output satisfies the reference invariant. -/
theorem leafRefs_polygon (env : CoreEnv) (l : Layer) (f : Feature)
    (g : Geometry) (st : Style) (out : Renderable)
    (h : olPolygonGeometryToCesium env l f g st = .ok out) :
    LeafRefsOk l f out := by
  cases g <;> try exact Except.noConfusion h
  case polygon rings altMode =>
    simp only [olPolygonGeometryToCesium] at h
    split at h
    · exact Except.noConfusion h
    · cases hm : (env.clonePolygonRings rings).mapM (fun ring =>
          if (env.toCartesians ring).isEmpty then
            Except.error "assert failed: positions && positions.length > 0"
          else Except.ok (env.toCartesians ring)) with
      | error e =>
          rw [hm] at h
          exact Except.noConfusion h
      | ok posRings =>
          rw [hm] at h
          simp only [bind, Except.bind] at h
          cases posRings with
          | nil => exact Except.noConfusion h
          | cons outer holeRings =>
              exact leafRefs_addTextStyle env l f _ st _ out
                (leafRefs_wrap env l f _ _ st) h

/-- The billboard state after the synchronous-or-deferred step of a point
conversion only ever grows by billboards carrying the back-reference. -/
theorem point_step_billboards (env : CoreEnv) (l : Layer) (f : Feature)
    (g : Geometry) (imageStyle : ImageStyle) (hasCb : Bool) (bs : BbState) :
    ∀ bb ∈ (if instanceofImage imageStyle.image &&
          !isImageLoaded imageStyle.image then
        { bs with listeners := bs.listeners + 1 }
      else
        reallyCreateBillboard env l f g imageStyle hasCb bs).billboards,
      bb ∈ bs.billboards ∨ bb.ref = some (l, f) := by
  split
  · intro bb hbb
    exact Or.inl hbb
  · cases hsup : supportedImage imageStyle.image with
    | false =>
        rw [reallyCreateBillboard_unsupported env l f g imageStyle hasCb bs
          hsup]
        intro bb hbb
        exact Or.inl hbb
    | true =>
        rw [reallyCreateBillboard_supported env l f g imageStyle hasCb bs
          hsup]
        intro bb hbb
        rcases List.mem_append.mp hbb with hmem | hmem
        · exact Or.inl hmem
        · right
          rw [List.mem_singleton.mp hmem]
          rfl

/-- The point converter only grows the billboard collection with billboards
carrying the back-reference, and its optional return value satisfies the
reference invariant. -/
theorem leafRefs_point (env : CoreEnv) (l : Layer) (f : Feature)
    (g : Geometry) (st : Style) (hasCb : Bool) (bs bs' : BbState)
    (res : Option Renderable)
    (h : olPointGeometryToCesium env l f g st hasCb bs = .ok (bs', res)) :
    (∀ bb ∈ bs'.billboards, bb ∈ bs.billboards ∨ bb.ref = some (l, f)) ∧
    (∀ r, res = some r → LeafRefsOk l f r) := by
  cases g <;> try exact Except.noConfusion h
  case point coords altMode =>
    simp only [olPointGeometryToCesium] at h
    cases himg : st.image with
    | none => rw [himg] at h; exact Except.noConfusion h
    | some imageStyle =>
        rw [himg] at h
        cases htext : st.text with
        | none =>
            rw [htext] at h
            injection h with h
            injection h with h1 h2
            subst h1
            refine ⟨point_step_billboards env l f _ imageStyle hasCb bs, ?_⟩
            intro r hr
            rw [← h2] at hr
            exact Option.noConfusion hr
        | some ts =>
            rw [htext] at h
            simp only [bind, Except.bind] at h
            cases hadd : addTextStyle env l f
                (.point (env.clonePointCoord coords) altMode) st
                (.emptyPrim none) with
            | error e => rw [hadd] at h; exact Except.noConfusion h
            | ok wrapped =>
                rw [hadd] at h
                simp only [] at h
                injection h with h
                injection h with h1 h2
                subst h1
                refine ⟨point_step_billboards env l f _ imageStyle hasCb bs,
                  ?_⟩
                intro r hr
                rw [← h2] at hr
                injection hr with hr
                subst hr
                exact leafRefs_addTextStyle env l f _ st _ _ (by
                  simp [LeafRefsOk]) hadd

/-- Converting the members of a MultiPoint only grows the billboard
collection with back-referenced billboards and yields renderables satisfying
the reference invariant. -/
theorem leafRefs_multiPointMembers (env : CoreEnv) (l : Layer) (f : Feature)
    (st : Style) (hasCb : Bool) :
    ∀ (points : List Coordinate) (bs bs' : BbState)
      (items : List Renderable),
      multiPointMembers env l f st hasCb points bs = .ok (bs', items) →
      (∀ bb ∈ bs'.billboards, bb ∈ bs.billboards ∨ bb.ref = some (l, f)) ∧
      LeafRefsOkList l f items := by
  intro points
  induction points with
  | nil =>
      intro bs bs' items h
      simp only [multiPointMembers] at h
      injection h with h
      injection h with h1 h2
      subst h1
      subst h2
      exact ⟨fun bb hbb => Or.inl hbb, trivial⟩
  | cons c rest ih =>
      intro bs bs' items h
      simp only [multiPointMembers] at h
      cases hp : olPointGeometryToCesium env l f (.point c none) st hasCb bs
          with
      | error e => rw [hp] at h; exact Except.noConfusion h
      | ok p1 =>
          obtain ⟨st1, r⟩ := p1
          rw [hp] at h
          simp only [] at h
          cases hm : multiPointMembers env l f st hasCb rest st1 with
          | error e => rw [hm] at h; exact Except.noConfusion h
          | ok p2 =>
              obtain ⟨st2, rs⟩ := p2
              rw [hm] at h
              simp only [] at h
              injection h with h
              injection h with h1 h2
              subst h1
              have hpt := leafRefs_point env l f (.point c none) st hasCb bs
                st1 r hp
              have hrest := ih st1 st2 rs hm
              constructor
              · intro bb hbb
                rcases hrest.1 bb hbb with hmem | href
                · exact hpt.1 bb hmem
                · exact Or.inr href
              · rw [← h2]
                cases r with
                | none => simpa using hrest.2
                | some rr =>
                    exact (leafRefsOkList_append l f _ _).mpr
                      ⟨⟨hpt.2 rr rfl, trivial⟩, hrest.2⟩

/-- A `mapM` over a converter whose outputs satisfy the reference invariant
yields a list satisfying the list invariant. -/
theorem leafRefs_mapM {α : Type} (l : Layer) (f : Feature)
    (conv : α → Except String Renderable)
    (hconv : ∀ a out, conv a = .ok out → LeafRefsOk l f out) :
    ∀ (xs : List α) (items : List Renderable),
      xs.mapM conv = .ok items → LeafRefsOkList l f items := by
  intro xs
  induction xs with
  | nil =>
      intro items h
      simp only [List.mapM_nil, pure, Except.pure] at h
      injection h with h
      subst h
      trivial
  | cons a as ih =>
      intro items h
      rw [List.mapM_cons] at h
      cases hc : conv a with
      | error e => rw [hc] at h; exact Except.noConfusion h
      | ok b =>
          rw [hc] at h
          simp only [bind, Except.bind] at h
          cases hm : as.mapM conv with
          | error e => rw [hm] at h; exact Except.noConfusion h
          | ok bs =>
              rw [hm] at h
              simp only [bind, Except.bind, pure, Except.pure] at h
              injection h with h
              subst h
              exact ⟨hconv a b hc, ih bs hm⟩

/-- The multi-geometry converter only grows the billboard collection with
back-referenced billboards, and its optional return value satisfies the
reference invariant. -/
theorem leafRefs_multi (env : CoreEnv) (l : Layer) (f : Feature)
    (g : Geometry) (st : Style) (hasCb : Bool) (bs bs' : BbState)
    (res : Option Renderable)
    (h : olMultiGeometryToCesium env l f g st hasCb bs = .ok (bs', res)) :
    (∀ bb ∈ bs'.billboards, bb ∈ bs.billboards ∨ bb.ref = some (l, f)) ∧
    (∀ r, res = some r → LeafRefsOk l f r) := by
  cases g <;> try exact Except.noConfusion h
  case multiPoint points altMode =>
    simp only [olMultiGeometryToCesium] at h
    cases hts : st.text.isSome with
    | true =>
        rw [hts] at h
        simp only [if_pos rfl] at h
        cases hmm : multiPointMembers env l f st hasCb points bs with
        | error e => rw [hmm] at h; exact Except.noConfusion h
        | ok p1 =>
            obtain ⟨st1, items⟩ := p1
            rw [hmm] at h
            simp only [] at h
            injection h with h
            injection h with h1 h2
            subst h1
            have hmem := leafRefs_multiPointMembers env l f st hasCb points
              bs st1 items hmm
            refine ⟨hmem.1, ?_⟩
            intro r hr
            rw [← h2] at hr
            injection hr with hr
            subst hr
            exact ⟨rfl, hmem.2⟩
    | false =>
        rw [hts] at h
        simp only [Bool.false_eq_true, if_neg, if_false] at h
        cases hmm : multiPointMembers env l f st hasCb points bs with
        | error e => rw [hmm] at h; exact Except.noConfusion h
        | ok p1 =>
            obtain ⟨st1, items⟩ := p1
            rw [hmm] at h
            simp only [] at h
            injection h with h
            injection h with h1 h2
            subst h1
            have hmem := leafRefs_multiPointMembers env l f st hasCb points
              bs st1 items hmm
            refine ⟨hmem.1, ?_⟩
            intro r hr
            rw [← h2] at hr
            exact Option.noConfusion hr
  case multiLineString lines altMode =>
    simp only [olMultiGeometryToCesium] at h
    cases hm : lines.mapM (fun line =>
        olLineStringGeometryToCesium env l f (.lineString line none) st) with
    | error e => rw [hm] at h; exact Except.noConfusion h
    | ok items =>
        rw [hm] at h
        simp only [bind, Except.bind] at h
        injection h with h
        injection h with h1 h2
        subst h1
        refine ⟨fun bb hbb => Or.inl hbb, ?_⟩
        intro r hr
        rw [← h2] at hr
        injection hr with hr
        subst hr
        exact ⟨rfl, leafRefs_mapM l f _
          (fun a out ha => leafRefs_lineString env l f _ st out ha)
          lines items hm⟩
  case multiPolygon polygons altMode =>
    simp only [olMultiGeometryToCesium] at h
    cases hm : polygons.mapM (fun p =>
        olPolygonGeometryToCesium env l f (.polygon p none) st) with
    | error e => rw [hm] at h; exact Except.noConfusion h
    | ok items =>
        rw [hm] at h
        simp only [bind, Except.bind] at h
        injection h with h
        injection h with h1 h2
        subst h1
        refine ⟨fun bb hbb => Or.inl hbb, ?_⟩
        intro r hr
        rw [← h2] at hr
        injection hr with hr
        subst hr
        exact ⟨rfl, leafRefs_mapM l f _
          (fun a out ha => leafRefs_polygon env l f _ st out ha)
          polygons items hm⟩

mutual

/-- The geometry dispatch of the feature converter returns renderables
satisfying the reference invariant and only grows the context's billboard
collection with back-referenced billboards. -/
theorem leafRefs_featureGeom (env : CoreEnv) (L : Layer) (F : Feature)
    (style : Style) :
    ∀ (g : Geometry) (ctx ctx' : ConvContext) (res : Option Renderable),
      olFeatureToCesiumGeom env L F style g ctx = .ok (ctx', res) →
      (∀ r, res = some r → LeafRefsOk L F r) ∧
      (∀ bb ∈ ctx'.billboards, bb ∈ ctx.billboards ∨ bb.ref = some (L, F))
  | .geometryCollection gs altMode, ctx, ctx', res, h => by
      simp only [olFeatureToCesiumGeom] at h
      cases hm : olGeometryCollectionMembers env L F style gs ctx with
      | error e => rw [hm] at h; exact Except.noConfusion h
      | ok p =>
          obtain ⟨ctx1, items⟩ := p
          rw [hm] at h
          simp only [] at h
          injection h with h
          injection h with h1 h2
          subst h1
          have hmem := leafRefs_members env L F style gs ctx ctx1 items hm
          constructor
          · intro r hr
            rw [← h2] at hr
            injection hr with hr
            subst hr
            exact ⟨rfl, hmem.1⟩
          · exact hmem.2
  | .point coords altMode, ctx, ctx', res, h => by
      simp only [olFeatureToCesiumGeom] at h
      cases hp : olPointGeometryToCesium env L F (.point coords altMode)
          style true ctx.toBbState with
      | error e => rw [hp] at h; exact Except.noConfusion h
      | ok p =>
          obtain ⟨st1, result⟩ := p
          rw [hp] at h
          simp only [] at h
          injection h with h
          injection h with h1 h2
          subst h1
          have hpt := leafRefs_point env L F (.point coords altMode) style
            true ctx.toBbState st1 result hp
          constructor
          · intro r hr
            rw [← h2] at hr
            exact hpt.2 r hr
          · intro bb hbb
            simp only [ConvContext.applyBbState] at hbb
            exact hpt.1 bb hbb
  | .circle center radius altMode, ctx, ctx', res, h => by
      simp only [olFeatureToCesiumGeom] at h
      cases hc : olCircleGeometryToCesium env L F
          (.circle center radius altMode) style with
      | error e => rw [hc] at h; exact Except.noConfusion h
      | ok out =>
          rw [hc] at h
          simp only [] at h
          injection h with h
          injection h with h1 h2
          subst h1
          constructor
          · intro r hr
            rw [← h2] at hr
            injection hr with hr
            subst hr
            exact leafRefs_circle env L F _ style _ hc
          · intro bb hbb
            exact Or.inl hbb
  | .lineString coords altMode, ctx, ctx', res, h => by
      simp only [olFeatureToCesiumGeom] at h
      cases hc : olLineStringGeometryToCesium env L F
          (.lineString coords altMode) style with
      | error e => rw [hc] at h; exact Except.noConfusion h
      | ok out =>
          rw [hc] at h
          simp only [] at h
          injection h with h
          injection h with h1 h2
          subst h1
          constructor
          · intro r hr
            rw [← h2] at hr
            injection hr with hr
            subst hr
            exact leafRefs_lineString env L F _ style _ hc
          · intro bb hbb
            exact Or.inl hbb
  | .polygon rings altMode, ctx, ctx', res, h => by
      simp only [olFeatureToCesiumGeom] at h
      cases hc : olPolygonGeometryToCesium env L F (.polygon rings altMode)
          style with
      | error e => rw [hc] at h; exact Except.noConfusion h
      | ok out =>
          rw [hc] at h
          simp only [] at h
          injection h with h
          injection h with h1 h2
          subst h1
          constructor
          · intro r hr
            rw [← h2] at hr
            injection hr with hr
            subst hr
            exact leafRefs_polygon env L F _ style _ hc
          · intro bb hbb
            exact Or.inl hbb
  | .multiPoint points altMode, ctx, ctx', res, h => by
      simp only [olFeatureToCesiumGeom] at h
      cases hp : olMultiGeometryToCesium env L F (.multiPoint points altMode)
          style true ctx.toBbState with
      | error e => rw [hp] at h; exact Except.noConfusion h
      | ok p =>
          obtain ⟨st1, result⟩ := p
          rw [hp] at h
          simp only [] at h
          injection h with h
          injection h with h1 h2
          subst h1
          have hpt := leafRefs_multi env L F (.multiPoint points altMode)
            style true ctx.toBbState st1 result hp
          constructor
          · intro r hr
            rw [← h2] at hr
            exact hpt.2 r hr
          · intro bb hbb
            simp only [ConvContext.applyBbState] at hbb
            exact hpt.1 bb hbb
  | .multiLineString lines altMode, ctx, ctx', res, h => by
      simp only [olFeatureToCesiumGeom] at h
      cases hp : olMultiGeometryToCesium env L F
          (.multiLineString lines altMode) style true ctx.toBbState with
      | error e => rw [hp] at h; exact Except.noConfusion h
      | ok p =>
          obtain ⟨st1, result⟩ := p
          rw [hp] at h
          simp only [] at h
          injection h with h
          injection h with h1 h2
          subst h1
          have hpt := leafRefs_multi env L F (.multiLineString lines altMode)
            style true ctx.toBbState st1 result hp
          constructor
          · intro r hr
            rw [← h2] at hr
            exact hpt.2 r hr
          · intro bb hbb
            simp only [ConvContext.applyBbState] at hbb
            exact hpt.1 bb hbb
  | .multiPolygon polygons altMode, ctx, ctx', res, h => by
      simp only [olFeatureToCesiumGeom] at h
      cases hp : olMultiGeometryToCesium env L F
          (.multiPolygon polygons altMode) style true ctx.toBbState with
      | error e => rw [hp] at h; exact Except.noConfusion h
      | ok p =>
          obtain ⟨st1, result⟩ := p
          rw [hp] at h
          simp only [] at h
          injection h with h
          injection h with h1 h2
          subst h1
          have hpt := leafRefs_multi env L F (.multiPolygon polygons altMode)
            style true ctx.toBbState st1 result hp
          constructor
          · intro r hr
            rw [← h2] at hr
            exact hpt.2 r hr
          · intro bb hbb
            simp only [ConvContext.applyBbState] at hbb
            exact hpt.1 bb hbb
  | .linearRing coords altMode, ctx, ctx', res, h => by
      exact Except.noConfusion h

/-- The GeometryCollection member loop returns renderables satisfying the
reference invariant and only grows the billboard collection with
back-referenced billboards. -/
theorem leafRefs_members (env : CoreEnv) (L : Layer) (F : Feature)
    (style : Style) :
    ∀ (gs : List Geometry) (ctx ctx' : ConvContext)
      (items : List Renderable),
      olGeometryCollectionMembers env L F style gs ctx = .ok (ctx', items) →
      LeafRefsOkList L F items ∧
      (∀ bb ∈ ctx'.billboards, bb ∈ ctx.billboards ∨ bb.ref = some (L, F))
  | [], ctx, ctx', items, h => by
      simp only [olGeometryCollectionMembers] at h
      injection h with h
      injection h with h1 h2
      subst h1
      subst h2
      exact ⟨trivial, fun bb hbb => Or.inl hbb⟩
  | g :: rest, ctx, ctx', items, h => by
      simp only [olGeometryCollectionMembers] at h
      cases hg : olFeatureToCesiumGeom env L F style g ctx with
      | error e => rw [hg] at h; exact Except.noConfusion h
      | ok p1 =>
          obtain ⟨ctx1, r⟩ := p1
          rw [hg] at h
          simp only [] at h
          cases hm : olGeometryCollectionMembers env L F style rest ctx1 with
          | error e => rw [hm] at h; exact Except.noConfusion h
          | ok p2 =>
              obtain ⟨ctx2, rs⟩ := p2
              rw [hm] at h
              simp only [] at h
              injection h with h
              injection h with h1 h2
              subst h1
              have hhead := leafRefs_featureGeom env L F style g ctx ctx1 r hg
              have hrest := leafRefs_members env L F style rest ctx1 ctx2 rs hm
              constructor
              · rw [← h2]
                cases r with
                | none => simpa using hrest.1
                | some rr =>
                    exact (leafRefsOkList_append L F _ _).mpr
                      ⟨⟨hhead.1 rr rfl, trivial⟩, hrest.1⟩
              · intro bb hbb
                rcases hrest.2 bb hbb with hmem | href
                · exact hhead.2 bb hmem
                · exact Or.inr href

end

/-- C9 counterexample: the renderable returned for a concrete polygon
feature — a primitive collection — carries no `{olLayer, olFeature}`
back-reference itself (`setReferenceForPicking` is never called on
collections), contradicting the claim that primitive collections alike carry
the back-reference before being returned. -/
theorem c9_collection_no_reference :
    (okValue (olPolygonGeometryToCesium testEnv testLayer testFeature
        (.polygon c1Rings none) c1Style)).map Renderable.refOf =
      some none := rfl

/-- C9 (amended): every leaf renderable produced for a feature — colored and
polyline primitives, labels, and billboards — carries the `{layer, feature}`
back-reference before being returned; aggregate primitive collections and
the point-label placeholder primitive do not carry it themselves, only
their members do. -/
theorem c9_leaf_reference_amended :
    ∀ (env : CoreEnv) (layer : Layer) (feature : Feature) (style : Style)
      (ctx : ConvContext) (optGeom : Option Geometry) (ctx' : ConvContext)
      (res : Option Renderable),
      olFeatureToCesium env layer feature style ctx optGeom = .ok (ctx', res) →
      (∀ r, res = some r → LeafRefsOk layer feature r) ∧
      (∀ bb ∈ ctx'.billboards,
          bb ∈ ctx.billboards ∨ bb.ref = some (layer, feature)) := by
  intro env layer feature style ctx optGeom ctx' res h
  simp only [olFeatureToCesium] at h
  cases optGeom with
  | some g =>
      simp only [] at h
      exact leafRefs_featureGeom env layer feature style g ctx ctx' res h
  | none =>
      simp only [] at h
      cases hfg : feature.geometry with
      | none =>
          rw [hfg] at h
          injection h with h
          injection h with h1 h2
          subst h1
          refine ⟨?_, fun bb hbb => Or.inl hbb⟩
          intro r hr
          rw [← h2] at hr
          exact Option.noConfusion hr
      | some g =>
          rw [hfg] at h
          exact leafRefs_featureGeom env layer feature style g ctx ctx' res h

/-- The concrete feature carrying the one-hole polygon. -/
def c9Feature : Feature := ⟨11, some (.polygon c1Rings none), none, none⟩

/-- The renderable the test environment produces for `c9Feature` under the
fill-and-stroke style: a collection (no reference itself) containing the
fill and outline primitives, each carrying the back-reference. -/
def c9Out : Renderable :=
  .collection
    [.coloredPrim
        (.polygon
          (.node [⟨0, 0, 0⟩, ⟨4, 0, 0⟩, ⟨4, 4, 0⟩, ⟨0, 4, 0⟩]
            (some (.node [⟨1, 1, 0⟩, ⟨2, 1, 0⟩, ⟨2, 2, 0⟩, ⟨1, 2, 0⟩] none)))
          true)
        (.fromOlColor "red") none (some (testLayer, c9Feature)),
      .coloredPrim
        (.polygonOutline
          (.node [⟨1, 1, 0⟩, ⟨2, 1, 0⟩, ⟨2, 2, 0⟩, ⟨1, 2, 0⟩] none) true)
        (.fromOlColor "black") (some 2) (some (testLayer, c9Feature))] none

/-- C9 witness: the concrete polygon feature conversion produces `c9Out`,
whose leaves all carry the back-reference. -/
theorem c9_leaf_reference_amended_witness :
    olFeatureToCesium testEnv testLayer c9Feature c1Style ⟨"P", [], [], 0⟩
        none = .ok (⟨"P", [], [], 0⟩, some c9Out) ∧
    LeafRefsOk testLayer c9Feature c9Out := by
  have h : olFeatureToCesium testEnv testLayer c9Feature c1Style
      ⟨"P", [], [], 0⟩ none = .ok (⟨"P", [], [], 0⟩, some c9Out) := by
    rfl
  exact ⟨h, (c9_leaf_reference_amended testEnv testLayer c9Feature c1Style
    ⟨"P", [], [], 0⟩ none ⟨"P", [], [], 0⟩ (some c9Out) h).1 c9Out rfl⟩
